import Mathlib

/-!
Verification development for the masjiduna-waqt prayer-time engine.

The engine is a numeric kernel over IEEE-754 doubles.  We embed it
shallowly over `ℚ`, abstracting the transcendental primitives (the
degree-indexed sin/cos lookup tables `tSin`/`tCos`, the value-indexed
`tAcos`/`tAtan` tables, `Math.sqrt`, and the native degree-domain trig of
`hour-angle.ts`) as an explicit oracle parameter `Trig`.  Every branch,
comparison and arithmetic expression of the source is kept; only the
float arithmetic is idealised to exact rationals and the transcendental
evaluations to oracle calls.  The qibla accessory, whose claim is about
the exact real formula, is embedded separately over `ℝ`.
-/

namespace Waqt

/-- Oracle for the transcendental primitives used by the engine: the
degree-domain sine/cosine (lookup tables `tSin`/`tCos` in the kernel,
`sinDeg`/`cosDeg` in `hour-angle.ts`), the arc-cosine returning degrees
(`tAcos` / `Math.acos·RAD2DEG`), the arc-tangent returning degrees
(`tAtan`), and `Math.sqrt`. -/
structure Trig where
  sin : ℚ → ℚ
  cos : ℚ → ℚ
  acos : ℚ → ℚ
  atan : ℚ → ℚ
  sqrt : ℚ → ℚ

/-- `EPSILON = 1e-6`, the tolerance of the cos-clamping policy. -/
def EPSILON : ℚ := 1 / 1000000

/-- `NEG_COS_BOUND = -(1 + EPSILON)`. -/
def NEG_COS_BOUND : ℚ := -(1 + EPSILON)

/-- `POS_COS_BOUND = 1 + EPSILON`. -/
def POS_COS_BOUND : ℚ := 1 + EPSILON

/-- `Math.max(-1, Math.min(1, x))` — snap a cosine into `[-1, 1]`. -/
def clamp1 (x : ℚ) : ℚ := max (-1) (min 1 x)

/-- The kernel's `tAcos` table clamps its input before the table lookup. -/
def tAcosC (T : Trig) (x : ℚ) : ℚ := T.acos (clamp1 x)

/-! ### hour-angle.ts: `computeHourAngle` -/

/-- `HourAngleResult` — discriminated union from `hour-angle.ts`. -/
inductive HourAngleResult where
  | valid (angle : ℚ) (cosOmega : ℚ) (clamped : Bool)
  | undef (cosOmega : ℚ)
  deriving DecidableEq

/-- `computeHourAngle(alpha, phi, delta)` from `hour-angle.ts`:
cos ω = (sin α − sin φ · sin δ)/(cos φ · cos δ); outside `±(1+ε)` the
result is the undefined variant carrying the raw cos ω; otherwise a valid
result with the clamped flag set when |cos ω| > 1 and the angle equal to
acos of the value snapped into `[-1, 1]`. -/
def computeHourAngle (T : Trig) (alpha phi delta : ℚ) : HourAngleResult :=
  let cosOmega := (T.sin alpha - T.sin phi * T.sin delta) /
    (T.cos phi * T.cos delta)
  if cosOmega < -(1 + EPSILON) ∨ cosOmega > 1 + EPSILON then
    .undef cosOmega
  else
    let clamped := decide (1 < |cosOmega|)
    let safe := max (-1) (min 1 cosOmega)
    .valid (T.acos safe) cosOmega clamped

/-- C2: the hour-angle computation returns the undefined variant exactly
when cos H₀ = (sin α − sin φ·sin δ)/(cos φ·cos δ) lies outside
`[-(1+ε), 1+ε]` with ε = 1e-6, preserving the raw cos H₀; otherwise it
returns a valid result whose clamped flag is set exactly when |cos H₀| > 1,
the angle being acos of cos H₀ snapped into `[-1, 1]`. -/
theorem computeHourAngle_spec (T : Trig) (alpha phi delta : ℚ) :
    (computeHourAngle T alpha phi delta =
        .undef ((T.sin alpha - T.sin phi * T.sin delta) /
          (T.cos phi * T.cos delta)) ↔
      ((T.sin alpha - T.sin phi * T.sin delta) /
          (T.cos phi * T.cos delta) < -(1 + EPSILON) ∨
        (T.sin alpha - T.sin phi * T.sin delta) /
          (T.cos phi * T.cos delta) > 1 + EPSILON)) ∧
    (¬((T.sin alpha - T.sin phi * T.sin delta) /
          (T.cos phi * T.cos delta) < -(1 + EPSILON) ∨
        (T.sin alpha - T.sin phi * T.sin delta) /
          (T.cos phi * T.cos delta) > 1 + EPSILON) →
      computeHourAngle T alpha phi delta =
        .valid
          (T.acos (max (-1) (min 1
            ((T.sin alpha - T.sin phi * T.sin delta) /
              (T.cos phi * T.cos delta)))))
          ((T.sin alpha - T.sin phi * T.sin delta) /
            (T.cos phi * T.cos delta))
          (decide (1 < |(T.sin alpha - T.sin phi * T.sin delta) /
            (T.cos phi * T.cos delta)|))) := by
  constructor
  · constructor
    · intro h
      by_contra hc
      simp only [computeHourAngle, if_neg hc] at h
      exact HourAngleResult.noConfusion h
    · intro h
      simp only [computeHourAngle, if_pos h]
  · intro h
    simp only [computeHourAngle, if_neg h]

/-- Witness for C2: a concrete oracle and inputs on the valid path. -/
theorem computeHourAngle_spec_witness :
    computeHourAngle ⟨fun _ => 1/2, fun _ => 1, fun _ => 60, fun _ => 45,
        fun _ => 0⟩ (-18) 0 0 =
      .valid 60 (1/4) false :=
  ((computeHourAngle_spec
      ⟨fun _ => 1/2, fun _ => 1, fun _ => 60, fun _ => 45, fun _ => 0⟩
      (-18) 0 0).2 (by norm_num [EPSILON])).trans (by
    norm_num [abs_of_pos])

/-! ### Data model (prayers.ts input types) -/

/-- `MethodInput` — fajr/isha angles in degrees, optional isha interval in
minutes (the JS `null`/`undefined` both collapse to `Option.none`), and an
optional maghrib angle (unused by the kernel). -/
structure MethodInput where
  fajr : ℚ
  isha : ℚ
  ishaInterval : Option ℚ
  maghribAngle : Option ℚ
  deriving DecidableEq

/-- `AdjustmentsInput` — six signed minute offsets. -/
structure AdjustmentsInput where
  fajr : ℚ
  sunrise : ℚ
  dhuhr : ℚ
  asr : ℚ
  maghrib : ℚ
  isha : ℚ
  deriving DecidableEq

/-- Madhab — shadow factor 1 (standard) or 2 (hanafi). -/
inductive Madhab where
  | standard
  | hanafi
  deriving DecidableEq

/-- High-latitude rule. -/
inductive HighLatRule where
  | middle_of_night
  | seventh_of_night
  | twilight_angle
  | none
  deriving DecidableEq

/-- Polar rule (accepted and ignored by the kernel). -/
inductive PolarRule where
  | unresolved
  | aqrab_balad
  | aqrab_yaum
  deriving DecidableEq

/-- `ResolvedInput` — fully resolved configuration, all fields required.
`timezoneId` and `midnightMode` are never read by `_computeCore` and are
omitted. -/
structure ResolvedInput where
  latitude : ℚ
  longitude : ℚ
  date : ℚ
  method : MethodInput
  madhab : Madhab
  highLatRule : HighLatRule
  polarRule : PolarRule
  adjustments : AdjustmentsInput
  elevation : ℚ
  deriving DecidableEq

/-- `PrayerTimeInput` — the public input type with optional fields
(`undefined` modelled as `Option.none`). -/
structure PrayerTimeInput where
  latitude : ℚ
  longitude : ℚ
  date : ℚ
  method : MethodInput
  madhab : Option Madhab
  highLatRule : Option HighLatRule
  polarRule : Option PolarRule
  adjustments : Option AdjustmentsInput
  elevation : Option ℚ
  deriving DecidableEq

/-- `NO_ADJUSTMENTS` from config.ts. -/
def NO_ADJUSTMENTS : AdjustmentsInput := ⟨0, 0, 0, 0, 0, 0⟩

/-- `_resolve(config)` from prayers.ts.  The fast path returns the
configuration unchanged when madhab, highLatRule, polarRule, adjustments
and elevation are all present (in the source this is a type cast; here it
is expressed by extracting the present values, which is the same value);
otherwise absent fields are filled: madhab `standard`, highLatRule
`middle_of_night`, polarRule `unresolved`, adjustments `NO_ADJUSTMENTS`,
elevation 0. -/
def resolve (config : PrayerTimeInput) : ResolvedInput :=
  if config.madhab.isSome ∧ config.highLatRule.isSome ∧
      config.polarRule.isSome ∧ config.adjustments.isSome ∧
      config.elevation.isSome then
    { latitude := config.latitude
      longitude := config.longitude
      date := config.date
      method := config.method
      madhab := config.madhab.getD .standard
      highLatRule := config.highLatRule.getD .middle_of_night
      polarRule := config.polarRule.getD .unresolved
      adjustments := config.adjustments.getD NO_ADJUSTMENTS
      elevation := config.elevation.getD 0 }
  else
    { latitude := config.latitude
      longitude := config.longitude
      date := config.date
      method := config.method
      madhab := config.madhab.getD .standard
      highLatRule := config.highLatRule.getD .middle_of_night
      polarRule := config.polarRule.getD .unresolved
      adjustments := config.adjustments.getD NO_ADJUSTMENTS
      elevation := config.elevation.getD 0 }

/-- `PrayerContextConfig` — context configuration (no date). -/
structure PrayerContextConfig where
  latitude : ℚ
  longitude : ℚ
  elevation : Option ℚ
  method : MethodInput
  madhab : Option Madhab
  highLatRule : Option HighLatRule
  polarRule : Option PolarRule
  adjustments : Option AdjustmentsInput
  deriving DecidableEq

/-- The resolved input built by `createPrayerContext` (its `input` object;
the date starts at 0 and is overwritten per `compute` call). -/
def contextInput (config : PrayerContextConfig) : ResolvedInput :=
  { latitude := config.latitude
    longitude := config.longitude
    date := 0
    method := config.method
    madhab := config.madhab.getD .standard
    highLatRule := config.highLatRule.getD .middle_of_night
    polarRule := config.polarRule.getD .unresolved
    adjustments := config.adjustments.getD NO_ADJUSTMENTS
    elevation := config.elevation.getD 0 }

/-! ### Day constants (the per-Julian-Date `_dc` cache record) -/

/-- The eleven per-day constants the kernel reads from the day-constants
cache (`DC_THETA0 … DC_MIDNIGHT_MS`). -/
structure DayConstants where
  theta0 : ℚ
  a2 : ℚ
  d2 : ℚ
  raAB : ℚ
  raC : ℚ
  declAB : ℚ
  declC : ℚ
  sinD2 : ℚ
  cosD2 : ℚ
  eqt : ℚ
  midnightMs : ℚ
  deriving DecidableEq

/-! ### Config cache values -/

/-- The configuration fields compared by the config cache
(`_ccLat … _ccAdjI`). -/
structure CCKey where
  lat : ℚ
  lng : ℚ
  elev : ℚ
  mFajr : ℚ
  mIsha : ℚ
  mIshaInt : Option ℚ
  madhab : Madhab
  adjF : ℚ
  adjSr : ℚ
  adjD : ℚ
  adjA : ℚ
  adjM : ℚ
  adjI : ℚ
  deriving DecidableEq

/-- The compared fields of a resolved configuration. -/
def ccKeyOf (config : ResolvedInput) : CCKey :=
  { lat := config.latitude
    lng := config.longitude
    elev := config.elevation
    mFajr := config.method.fajr
    mIsha := config.method.isha
    mIshaInt := config.method.ishaInterval
    madhab := config.madhab
    adjF := config.adjustments.fajr
    adjSr := config.adjustments.sunrise
    adjD := config.adjustments.dhuhr
    adjA := config.adjustments.asr
    adjM := config.adjustments.maghrib
    adjI := config.adjustments.isha }

/-- The config-derived constants recomputed by the config cache on a
miss (`_sinLat … _shadowK`). -/
structure CC where
  sinLat : ℚ
  cosLat : ℚ
  Lw : ℚ
  c360cosLat : ℚ
  horizonAlt : ℚ
  sinHorizonAlt : ℚ
  base90Horizon : ℚ
  fajrAlt : ℚ
  sinFajrAlt : ℚ
  base90Fajr : ℚ
  ishaAlt : ℚ
  sinIshaAlt : ℚ
  base90Isha : ℚ
  adjFajrMs : ℚ
  adjSunriseMs : ℚ
  adjDhuhrMs : ℚ
  adjAsrMs : ℚ
  adjMaghribMs : ℚ
  adjIshaMs : ℚ
  shadowK : ℚ
  deriving DecidableEq

/-- The config-derived constants as a function of the compared fields
(the config-cache refresh block of `_computeCore`, step 0). -/
def mkCCKey (T : Trig) (k : CCKey) : CC :=
  { sinLat := T.sin k.lat
    cosLat := T.cos k.lat
    Lw := -k.lng
    c360cosLat := 360 * T.cos k.lat
    horizonAlt := -(8333/10000 + 347/10000 * T.sqrt k.elev)
    sinHorizonAlt := T.sin (-(8333/10000 + 347/10000 * T.sqrt k.elev))
    base90Horizon := 90 - -(8333/10000 + 347/10000 * T.sqrt k.elev)
    fajrAlt := -k.mFajr
    sinFajrAlt := T.sin (-k.mFajr)
    base90Fajr := 90 - -k.mFajr
    ishaAlt := -k.mIsha
    sinIshaAlt := T.sin (-k.mIsha)
    base90Isha := 90 - -k.mIsha
    adjFajrMs := k.adjF * 60000
    adjSunriseMs := k.adjSr * 60000
    adjDhuhrMs := k.adjD * 60000
    adjAsrMs := k.adjA * 60000
    adjMaghribMs := k.adjM * 60000
    adjIshaMs := k.adjI * 60000
    shadowK := if k.madhab = .standard then 1 else 2 }

/-- Config-derived constants of a resolved configuration. -/
def mkCC (T : Trig) (config : ResolvedInput) : CC :=
  mkCCKey T (ccKeyOf config)

/-! ### Compute kernel (`_computeCore`) -/

/-- `JD = ms/86400000 + 2440587.5`. -/
def julianDateOfMs (ms : ℚ) : ℚ := ms / 86400000 + 4881175 / 2

/-- One conditional subtraction: `if (x >= 360) x -= 360`. -/
def red360 (x : ℚ) : ℚ := if x ≥ 360 then x - 360 else x

/-- Sidereal time advanced to day-fraction `m`, with the kernel's two
conditional subtractions (`Theta0 + 360.985647 * m`, twice reduced). -/
def thetaAt (dc : DayConstants) (m : ℚ) : ℚ :=
  red360 (red360 (dc.theta0 + 360985647 / 1000000 * m))

/-- The kernel's one-step normalization of interpolated right ascension:
`if (a >= 360) a -= 360; else if (a < 0) a += 360`. -/
def raNorm (x : ℚ) : ℚ :=
  if x ≥ 360 then x - 360 else if x < 0 then x + 360 else x

/-- Right ascension interpolated to day-fraction `m`:
`a2 + (m/2)·(raAB + m·raC)`, one-step normalized. -/
def raAt (dc : DayConstants) (m : ℚ) : ℚ :=
  raNorm (dc.a2 + m * (1/2) * (dc.raAB + m * dc.raC))

/-- Declination interpolated to day-fraction `m`:
`d2 + (m/2)·(declAB + m·declC)`. -/
def declAt (dc : DayConstants) (m : ℚ) : ℚ :=
  dc.d2 + m * (1/2) * (dc.declAB + m * dc.declC)

/-- Approximate transit `m0 = frac((a2 + Lw − Theta0)/360)`. -/
def m0 (cc : CC) (dc : DayConstants) : ℚ :=
  let m0Raw := (dc.a2 + cc.Lw - dc.theta0) * (1/360)
  m0Raw - ⌊m0Raw⌋

/-- Local hour angle of the transit, quadrant-shifted to `[-180, 180]`
(`rawTransitH - 360 * Math.round(rawTransitH * INV360)` when outside;
`Math.round x = ⌊x + 1/2⌋`). -/
def transitH (cc : CC) (dc : DayConstants) : ℚ :=
  let rawTransitH := thetaAt dc (m0 cc dc) - cc.Lw - raAt dc (m0 cc dc)
  if rawTransitH ≥ -180 ∧ rawTransitH ≤ 180 then rawTransitH
  else rawTransitH - 360 * ⌊rawTransitH * (1/360) + 1/2⌋

/-- Solar noon in UTC hours: `(m0 − transitH/360) * 24`. -/
def transitUtcH (cc : CC) (dc : DayConstants) : ℚ :=
  (m0 cc dc - transitH cc dc * (1/360)) * 24

/-- Asr target altitude:
`atan(1 / (shadowK + tan|latitude − δ_at_transit|))` via the tables. -/
def asrAlt (T : Trig) (cc : CC) (dc : DayConstants) (lat : ℚ) : ℚ :=
  let transitFrac := transitUtcH cc dc / 24
  let declAtTransit := declAt dc transitFrac
  let asrDiff := |lat - declAtTransit|
  T.atan (1 / (cc.shadowK + T.sin asrDiff / T.cos asrDiff))

/-- The shared one-step Meeus refinement of a corrected hour angle event,
returning epoch ms (without minute adjustment); `base90` is the zenith
distance `90 − target altitude` of the event. -/
def cha (T : Trig) (cc : CC) (dc : DayConstants) (m base90 : ℚ) : ℚ :=
  let t := thetaAt dc m
  let a := raAt dc m
  let d := declAt dc m
  let H := t - cc.Lw - a
  let sd := T.sin d
  let cd := T.cos d
  let dm := (base90 - tAcosC T (cc.sinLat * sd + cc.cosLat * cd * T.cos H)) /
    (cc.c360cosLat * cd * T.sin H)
  dc.midnightMs + (m + dm) * 86400000

/-- `sinLat·sinD2`, precomputed once per call. -/
def sinLatSinD2 (cc : CC) (dc : DayConstants) : ℚ := cc.sinLat * dc.sinD2

/-- `cosLat·cosD2`, precomputed once per call. -/
def cosLatCosD2 (cc : CC) (dc : DayConstants) : ℚ := cc.cosLat * dc.cosD2

/-- `cos H₀ = (sin α − sinLat·sinD2)/(cosLat·cosD2)` for target-altitude
sine `sinAlt`. -/
def cosH0Of (sinAlt : ℚ) (cc : CC) (dc : DayConstants) : ℚ :=
  (sinAlt - sinLatSinD2 cc dc) / cosLatCosD2 cc dc

/-- The undefined test: `cosH0 < NEG_COS_BOUND || cosH0 > POS_COS_BOUND`. -/
def outOfRange (c : ℚ) : Bool :=
  decide (c < NEG_COS_BOUND ∨ c > POS_COS_BOUND)

/-- The clamped flag lane value: `+(cosH0 > 1 || cosH0 < -1)`. -/
def clampFlag (c : ℚ) : ℕ := if c > 1 ∨ c < -1 then 1 else 0

/-- cos H₀ for fajr. -/
def cosH0Fajr (cc : CC) (dc : DayConstants) : ℚ := cosH0Of cc.sinFajrAlt cc dc

/-- cos H₀ for sunrise and sunset (shared). -/
def cosH0Horizon (cc : CC) (dc : DayConstants) : ℚ :=
  cosH0Of cc.sinHorizonAlt cc dc

/-- cos H₀ for asr. -/
def cosH0Asr (T : Trig) (cc : CC) (dc : DayConstants) (lat : ℚ) : ℚ :=
  cosH0Of (T.sin (asrAlt T cc dc lat)) cc dc

/-- cos H₀ for isha (angle path). -/
def cosH0Isha (cc : CC) (dc : DayConstants) : ℚ := cosH0Of cc.sinIshaAlt cc dc

/-- Fajr time lane (before high-latitude fallback):
refinement at `m0 − H₀/360` plus the fajr adjustment. -/
def fajrLaneMs (T : Trig) (cc : CC) (dc : DayConstants) : ℚ :=
  cha T cc dc (m0 cc dc - tAcosC T (cosH0Fajr cc dc) * (1/360)) cc.base90Fajr
    + cc.adjFajrMs

/-- Sunrise time lane: refinement at `m0 − H₀/360` plus adjustment. -/
def sunriseLaneMs (T : Trig) (cc : CC) (dc : DayConstants) : ℚ :=
  cha T cc dc (m0 cc dc - tAcosC T (cosH0Horizon cc dc) * (1/360))
    cc.base90Horizon + cc.adjSunriseMs

/-- Raw sunset (slot 28): refinement at `m0 + H₀/360`, no adjustment. -/
def sunsetRawMs (T : Trig) (cc : CC) (dc : DayConstants) : ℚ :=
  cha T cc dc (m0 cc dc + tAcosC T (cosH0Horizon cc dc) * (1/360))
    cc.base90Horizon

/-- Maghrib time lane (slot 4): raw sunset plus the maghrib adjustment. -/
def maghribLaneMs (T : Trig) (cc : CC) (dc : DayConstants) : ℚ :=
  sunsetRawMs T cc dc + cc.adjMaghribMs

/-- Dhuhr time lane: `utc_midnight + transitUtcH·3600000 + adjustment`. -/
def dhuhrLaneMs (cc : CC) (dc : DayConstants) : ℚ :=
  dc.midnightMs + transitUtcH cc dc * 3600000 + cc.adjDhuhrMs

/-- Asr time lane: refinement at `m0 + H₀/360` plus adjustment. -/
def asrLaneMs (T : Trig) (cc : CC) (dc : DayConstants) (lat : ℚ) : ℚ :=
  cha T cc dc (m0 cc dc + tAcosC T (cosH0Asr T cc dc lat) * (1/360))
    (90 - asrAlt T cc dc lat) + cc.adjAsrMs

/-- Isha time lane on the angle path: refinement at `m0 + H₀/360` plus
adjustment. -/
def ishaAngleLaneMs (T : Trig) (cc : CC) (dc : DayConstants) : ℚ :=
  cha T cc dc (m0 cc dc + tAcosC T (cosH0Isha cc dc) * (1/360)) cc.base90Isha
    + cc.adjIshaMs

/-- Undefined flag for fajr (bit 0, before fallback). -/
def fajrU (cc : CC) (dc : DayConstants) : Bool := outOfRange (cosH0Fajr cc dc)

/-- Undefined flag shared by sunrise and sunset (bits 1 and 3). -/
def sunU (cc : CC) (dc : DayConstants) : Bool :=
  outOfRange (cosH0Horizon cc dc)

/-- Undefined flag for asr (bit 2). -/
def asrU (T : Trig) (cc : CC) (dc : DayConstants) (lat : ℚ) : Bool :=
  outOfRange (cosH0Asr T cc dc lat)

/-- Undefined flag for isha on the angle path (bit 4). -/
def ishaAngleU (cc : CC) (dc : DayConstants) : Bool :=
  outOfRange (cosH0Isha cc dc)

/-- The undefined-flags bitmask, one Boolean per bit
(bit 0 = fajr, 1 = sunrise, 2 = asr, 3 = sunset/maghrib, 4 = isha;
the kernel only ever sets bits 1 and 3 together, via `uf |= 10`). -/
structure UF where
  fajr : Bool
  sunrise : Bool
  asr : Bool
  sunset : Bool
  isha : Bool
  deriving DecidableEq

/-- One 29-lane slab slot.  The six `cosOmega` lanes use `Option ℚ` for
the NaN sentinel (`none` = NaN = "not applicable"); the six flag lanes
hold the packed naturals the source stores as doubles.  Lanes the kernel
leaves unwritten keep their previous (stale) contents, exactly as a slot
of the ring buffer does. -/
structure Slab where
  msFajr : ℚ
  msSunrise : ℚ
  msDhuhr : ℚ
  msAsr : ℚ
  msMaghrib : ℚ
  msIsha : ℚ
  coFajr : Option ℚ
  coSunrise : Option ℚ
  coDhuhr : Option ℚ
  coAsr : Option ℚ
  coMaghrib : Option ℚ
  coIsha : Option ℚ
  cfFajr : ℕ
  cfSunrise : ℕ
  cfDhuhr : ℕ
  cfAsr : ℕ
  cfMaghrib : ℕ
  cfIsha : ℕ
  taFajr : ℚ
  taSunrise : ℚ
  taDhuhr : ℚ
  taAsr : ℚ
  taMaghrib : ℚ
  taIsha : ℚ
  metaDecl : ℚ
  metaEqt : ℚ
  metaNoon : ℚ
  metaJd : ℚ
  sunsetRaw : ℚ
  deriving DecidableEq

/-- A zeroed slab slot (the initial contents of the ring buffer). -/
def slab0 : Slab :=
  { msFajr := 0, msSunrise := 0, msDhuhr := 0, msAsr := 0, msMaghrib := 0
    msIsha := 0
    coFajr := Option.none, coSunrise := Option.none, coDhuhr := Option.none
    coAsr := Option.none, coMaghrib := Option.none, coIsha := Option.none
    cfFajr := 0, cfSunrise := 0, cfDhuhr := 0, cfAsr := 0, cfMaghrib := 0
    cfIsha := 0
    taFajr := 0, taSunrise := 0, taDhuhr := 0, taAsr := 0, taMaghrib := 0
    taIsha := 0
    metaDecl := 0, metaEqt := 0, metaNoon := 0, metaJd := 0, sunsetRaw := 0 }

/-- The isha lanes and undefined flag written by step 5 of the kernel:
the interval branch is taken when `ishaInterval != null` and sunset is
defined (`!(uf & 8)`); it writes `maghrib lane + (interval + isha
adjustment) minutes`, a NaN cosOmega, flag 2 and target altitude 0.
Otherwise the angle path runs. -/
def ishaLanes (T : Trig) (config : ResolvedInput) (cc : CC)
    (dc : DayConstants) (s0 : Slab) : ℚ × Option ℚ × ℕ × ℚ × Bool :=
  match config.method.ishaInterval, sunU cc dc with
  | some iv, false =>
      (maghribLaneMs T cc dc + (iv + config.adjustments.isha) * 60000,
        Option.none, 2, 0, false)
  | _, _ =>
      if ishaAngleU cc dc then
        (s0.msIsha, some (cosH0Isha cc dc), s0.cfIsha, cc.ishaAlt, true)
      else
        (ishaAngleLaneMs T cc dc, some (cosH0Isha cc dc),
          clampFlag (cosH0Isha cc dc), cc.ishaAlt, false)

/-- Steps 1–5 of `_computeCore` (everything before the high-latitude
fallback), writing over the stale slot `s0` and producing the
undefined-flags mask. -/
def preComputeCC (T : Trig) (config : ResolvedInput) (cc : CC)
    (dc : DayConstants) (s0 : Slab) : Slab × UF :=
  let il := ishaLanes T config cc dc s0
  ({ msFajr := if fajrU cc dc then s0.msFajr else fajrLaneMs T cc dc
     msSunrise := if sunU cc dc then s0.msSunrise else sunriseLaneMs T cc dc
     msDhuhr := dhuhrLaneMs cc dc
     msAsr := if asrU T cc dc config.latitude then s0.msAsr
       else asrLaneMs T cc dc config.latitude
     msMaghrib := if sunU cc dc then s0.msMaghrib else maghribLaneMs T cc dc
     msIsha := il.1
     coFajr := some (cosH0Fajr cc dc)
     coSunrise := some (cosH0Horizon cc dc)
     coDhuhr := Option.none
     coAsr := some (cosH0Asr T cc dc config.latitude)
     coMaghrib := some (cosH0Horizon cc dc)
     coIsha := il.2.1
     cfFajr := if fajrU cc dc then s0.cfFajr else clampFlag (cosH0Fajr cc dc)
     cfSunrise := if sunU cc dc then s0.cfSunrise
       else clampFlag (cosH0Horizon cc dc)
     cfDhuhr := 0
     cfAsr := if asrU T cc dc config.latitude then s0.cfAsr
       else clampFlag (cosH0Asr T cc dc config.latitude)
     cfMaghrib := if sunU cc dc then s0.cfMaghrib
       else clampFlag (cosH0Horizon cc dc)
     cfIsha := il.2.2.1
     taFajr := cc.fajrAlt
     taSunrise := cc.horizonAlt
     taDhuhr := 90
     taAsr := asrAlt T cc dc config.latitude
     taMaghrib := cc.horizonAlt
     taIsha := il.2.2.2.1
     metaDecl := dc.d2
     metaEqt := dc.eqt
     metaNoon := dc.midnightMs + transitUtcH cc dc * 3600000
     metaJd := julianDateOfMs config.date
     sunsetRaw := if sunU cc dc then s0.sunsetRaw else sunsetRawMs T cc dc },
   { fajr := fajrU cc dc
     sunrise := sunU cc dc
     asr := asrU T cc dc config.latitude
     sunset := sunU cc dc
     isha := il.2.2.2.2 })

/-- Step 6 of `_computeCore`: the inlined high-latitude fallback.
Runs only when the rule is not `none` and both sunrise and sunset are
defined (`!(uf & 10)`); when fajr or isha is undefined (`uf & 17`) and the
night `next sunrise − raw sunset` is strictly positive, the undefined
slot is rewritten (middle/seventh/twilight formula plus the prayer's
minute adjustment), its flag lane set to the rule's code (4/8/16) and its
undefined bit cleared. -/
def applyFallback (config : ResolvedInput) (cc : CC) (s : Slab) (u : UF) :
    Slab × UF :=
  if config.highLatRule ≠ .none ∧ ¬(u.sunrise || u.sunset) then
    if u.fajr || u.isha then
      let sunsetMs := s.sunsetRaw
      let nextSunriseMs := s.msSunrise + 86400000
      let nightMs := nextSunriseMs - sunsetMs
      if 0 < nightMs then
        let cfF : ℕ := if config.highLatRule = .middle_of_night then 4
          else if config.highLatRule = .seventh_of_night then 8 else 16
        let r1 : Slab × UF :=
          if u.fajr then
            let fbMs := if config.highLatRule = .middle_of_night then
                sunsetMs + nightMs * (1/2)
              else if config.highLatRule = .seventh_of_night then
                nextSunriseMs - nightMs / 7
              else nextSunriseMs - config.method.fajr / 60 * nightMs
            ({ s with msFajr := fbMs + cc.adjFajrMs, cfFajr := cfF },
              { u with fajr := false })
          else (s, u)
        -- The source tests the updated mask (`uf & 16`), but the fajr
        -- rewrite only clears bit 0, so this equals testing `u.isha`.
        if u.isha then
          let fbMs := if config.highLatRule = .middle_of_night then
              sunsetMs + nightMs * (1/2)
            else if config.highLatRule = .seventh_of_night then
              sunsetMs + nightMs / 7
            else sunsetMs + config.method.isha / 60 * nightMs
          ({ r1.1 with msIsha := fbMs + cc.adjIshaMs, cfIsha := cfF },
            { r1.2 with isha := false })
        else r1
      else (s, u)
    else (s, u)
  else (s, u)

/-- `_computeCore` with an explicitly supplied config-derived block
(the form the config cache serves). -/
def computeCoreCC (T : Trig) (config : ResolvedInput) (cc : CC)
    (dc : DayConstants) (s0 : Slab) : Slab × UF :=
  let p := preComputeCC T config cc dc s0
  applyFallback config cc p.1 p.2

/-- `_computeCore(config, S, o)`: fills a slab slot and returns the
undefined-flags mask.  The day constants `dc` stand for the values the
day-constants cache serves for the configured date. -/
def computeCore (T : Trig) (config : ResolvedInput) (dc : DayConstants)
    (s0 : Slab) : Slab × UF :=
  computeCoreCC T config (mkCC T config) dc s0

/-! ### Output view (`PTR` and its lazy accessors) -/

/-- `fallbackUsed` diagnostic values. -/
inductive FallbackKind where
  | interval
  | middle_of_night
  | seventh_of_night
  | twilight_angle
  deriving DecidableEq

/-- `PrayerDiagnostics`. -/
structure Diagnostics where
  cosOmega : Option ℚ
  clamped : Bool
  fallbackUsed : Option FallbackKind
  targetAltitude : ℚ
  deriving DecidableEq

/-- `PrayerTimeResult` — tagged union of a valid time or an undefined
marker with a reason. -/
inductive PrayerTimeResult where
  | valid (ms : ℚ) (diagnostics : Diagnostics)
  | undef (reason : String) (diagnostics : Diagnostics)
  deriving DecidableEq

/-- The ms of a result, `none` when undefined. -/
def msOf : PrayerTimeResult → Option ℚ
  | .valid ms _ => some ms
  | .undef _ _ => Option.none

/-- The diagnostics of a result. -/
def diagOf : PrayerTimeResult → Diagnostics
  | .valid _ d => d
  | .undef _ d => d

/-- Decode the packed flag lane into diagnostics (the `V` class getter:
bit 0 clamped; bit 1 interval; bit 2 middle; bit 3 seventh;
bit 4 twilight). -/
def decodeCF (co : Option ℚ) (cf : ℕ) (ta : ℚ) : Diagnostics :=
  { cosOmega := co
    clamped := cf.testBit 0
    fallbackUsed :=
      if cf.testBit 1 then some .interval
      else if cf.testBit 2 then some .middle_of_night
      else if cf.testBit 3 then some .seventh_of_night
      else if cf.testBit 4 then some .twilight_angle
      else Option.none
    targetAltitude := ta }

/-- `DERIVED_DIAG` — the diagnostics of derived results. -/
def DERIVED_DIAG : Diagnostics :=
  { cosOmega := Option.none, clamped := false
    fallbackUsed := Option.none, targetAltitude := 0 }

/-- `UNDEFINED_REASON`. -/
def UNDEFINED_REASON : String := "sun never reaches target altitude"

/-- `UNDEF_NIGHT` — the shared undefined night-division result. -/
def UNDEF_NIGHT : PrayerTimeResult :=
  .undef ("sunset or sunrise undefined") DERIVED_DIAG

/-- `UNDEF_FAJR` — the undefined imsak result. -/
def UNDEF_FAJR : PrayerTimeResult := .undef ("fajr is undefined") DERIVED_DIAG

/-- `_vFromSlot`. -/
def vFrom (ms : ℚ) (co : Option ℚ) (cf : ℕ) (ta : ℚ) : PrayerTimeResult :=
  .valid ms (decodeCF co cf ta)

/-- `_undefFromSlot` — reason `UNDEFINED_REASON`, diagnostics from the
slab's cosOmega and target-altitude lanes, clamped false, no fallback. -/
def undefFrom (co : Option ℚ) (ta : ℚ) : PrayerTimeResult :=
  .undef UNDEFINED_REASON
    { cosOmega := co, clamped := false, fallbackUsed := Option.none
      targetAltitude := ta }

/-- The materialized output: the eleven prayer results plus metadata. -/
structure PrayerTimesOutput where
  fajr : PrayerTimeResult
  sunrise : PrayerTimeResult
  dhuhr : PrayerTimeResult
  asr : PrayerTimeResult
  sunset : PrayerTimeResult
  maghrib : PrayerTimeResult
  isha : PrayerTimeResult
  midnight : PrayerTimeResult
  imsak : PrayerTimeResult
  firstThird : PrayerTimeResult
  lastThird : PrayerTimeResult
  declination : ℚ
  eqtMinutes : ℚ
  solarNoonMs : ℚ
  julianDate : ℚ
  deriving DecidableEq

/-- The `PTR` accessors, materialized over a slab slot and undefined
mask.  Sunset reads the raw slot 28 with slot 4's diagnostics lanes;
midnight, first third and last third anchor to raw sunset and next-day
sunrise (`sunrise lane + 86400000`); imsak is `fajr lane − 600000`. -/
def output (s : Slab) (u : UF) : PrayerTimesOutput :=
  { fajr := if u.fajr then undefFrom s.coFajr s.taFajr
      else vFrom s.msFajr s.coFajr s.cfFajr s.taFajr
    sunrise := if u.sunrise then undefFrom s.coSunrise s.taSunrise
      else vFrom s.msSunrise s.coSunrise s.cfSunrise s.taSunrise
    dhuhr := vFrom s.msDhuhr s.coDhuhr s.cfDhuhr s.taDhuhr
    asr := if u.asr then undefFrom s.coAsr s.taAsr
      else vFrom s.msAsr s.coAsr s.cfAsr s.taAsr
    sunset := if u.sunset then undefFrom s.coMaghrib s.taMaghrib
      else vFrom s.sunsetRaw s.coMaghrib s.cfMaghrib s.taMaghrib
    maghrib := if u.sunset then undefFrom s.coMaghrib s.taMaghrib
      else vFrom s.msMaghrib s.coMaghrib s.cfMaghrib s.taMaghrib
    isha := if u.isha then undefFrom s.coIsha s.taIsha
      else vFrom s.msIsha s.coIsha s.cfIsha s.taIsha
    midnight := if u.sunrise || u.sunset then UNDEF_NIGHT
      else .valid (s.sunsetRaw +
        (s.msSunrise + 86400000 - s.sunsetRaw) * (1/2)) DERIVED_DIAG
    imsak := if u.fajr then UNDEF_FAJR
      else .valid (s.msFajr - 10 * 60000) DERIVED_DIAG
    firstThird := if u.sunrise || u.sunset then UNDEF_NIGHT
      else .valid (s.sunsetRaw +
        (s.msSunrise + 86400000 - s.sunsetRaw) / 3) DERIVED_DIAG
    lastThird := if u.sunrise || u.sunset then UNDEF_NIGHT
      else .valid (s.sunsetRaw +
        (s.msSunrise + 86400000 - s.sunsetRaw) * (2/3)) DERIVED_DIAG
    declination := s.metaDecl
    eqtMinutes := s.metaEqt
    solarNoonMs := s.metaNoon
    julianDate := s.metaJd }

/-- `computePrayerTimes(config)` — resolve, run the kernel on a slab
slot, project the output. -/
def computePrayerTimes (T : Trig) (config : PrayerTimeInput)
    (dc : DayConstants) (s0 : Slab) : PrayerTimesOutput :=
  let p := computeCore T (resolve config) dc s0
  output p.1 p.2

/-! ### Frame lemmas: the high-latitude fallback only rewrites the fajr
and isha time/flag lanes and undefined bits. -/

/-- Shape of the fallback result: everything except the fajr/isha time
and flag lanes and undefined bits is carried over unchanged. -/
theorem applyFallback_shape (config : ResolvedInput) (cc : CC) (s : Slab)
    (u : UF) : ∃ mf cf mi ci fF iF, applyFallback config cc s u =
      ({ s with msFajr := mf, cfFajr := cf, msIsha := mi, cfIsha := ci },
        { u with fajr := fF, isha := iF }) := by
  unfold applyFallback; dsimp only
  split_ifs <;> exact ⟨_, _, _, _, _, _, rfl⟩

@[simp]
theorem applyFallback_msSunrise (config : ResolvedInput) (cc : CC) (s : Slab)
    (u : UF) : (applyFallback config cc s u).1.msSunrise = s.msSunrise := by
  obtain ⟨mf, cf, mi, ci, fF, iF, h⟩ := applyFallback_shape config cc s u
  rw [h]

@[simp]
theorem applyFallback_msDhuhr (config : ResolvedInput) (cc : CC) (s : Slab)
    (u : UF) : (applyFallback config cc s u).1.msDhuhr = s.msDhuhr := by
  obtain ⟨mf, cf, mi, ci, fF, iF, h⟩ := applyFallback_shape config cc s u
  rw [h]

@[simp]
theorem applyFallback_msAsr (config : ResolvedInput) (cc : CC) (s : Slab)
    (u : UF) : (applyFallback config cc s u).1.msAsr = s.msAsr := by
  obtain ⟨mf, cf, mi, ci, fF, iF, h⟩ := applyFallback_shape config cc s u
  rw [h]

@[simp]
theorem applyFallback_msMaghrib (config : ResolvedInput) (cc : CC) (s : Slab)
    (u : UF) : (applyFallback config cc s u).1.msMaghrib = s.msMaghrib := by
  obtain ⟨mf, cf, mi, ci, fF, iF, h⟩ := applyFallback_shape config cc s u
  rw [h]

@[simp]
theorem applyFallback_coFajr (config : ResolvedInput) (cc : CC) (s : Slab)
    (u : UF) : (applyFallback config cc s u).1.coFajr = s.coFajr := by
  obtain ⟨mf, cf, mi, ci, fF, iF, h⟩ := applyFallback_shape config cc s u
  rw [h]

@[simp]
theorem applyFallback_coSunrise (config : ResolvedInput) (cc : CC) (s : Slab)
    (u : UF) : (applyFallback config cc s u).1.coSunrise = s.coSunrise := by
  obtain ⟨mf, cf, mi, ci, fF, iF, h⟩ := applyFallback_shape config cc s u
  rw [h]

@[simp]
theorem applyFallback_coDhuhr (config : ResolvedInput) (cc : CC) (s : Slab)
    (u : UF) : (applyFallback config cc s u).1.coDhuhr = s.coDhuhr := by
  obtain ⟨mf, cf, mi, ci, fF, iF, h⟩ := applyFallback_shape config cc s u
  rw [h]

@[simp]
theorem applyFallback_coAsr (config : ResolvedInput) (cc : CC) (s : Slab)
    (u : UF) : (applyFallback config cc s u).1.coAsr = s.coAsr := by
  obtain ⟨mf, cf, mi, ci, fF, iF, h⟩ := applyFallback_shape config cc s u
  rw [h]

@[simp]
theorem applyFallback_coMaghrib (config : ResolvedInput) (cc : CC) (s : Slab)
    (u : UF) : (applyFallback config cc s u).1.coMaghrib = s.coMaghrib := by
  obtain ⟨mf, cf, mi, ci, fF, iF, h⟩ := applyFallback_shape config cc s u
  rw [h]

@[simp]
theorem applyFallback_coIsha (config : ResolvedInput) (cc : CC) (s : Slab)
    (u : UF) : (applyFallback config cc s u).1.coIsha = s.coIsha := by
  obtain ⟨mf, cf, mi, ci, fF, iF, h⟩ := applyFallback_shape config cc s u
  rw [h]

@[simp]
theorem applyFallback_cfSunrise (config : ResolvedInput) (cc : CC) (s : Slab)
    (u : UF) : (applyFallback config cc s u).1.cfSunrise = s.cfSunrise := by
  obtain ⟨mf, cf, mi, ci, fF, iF, h⟩ := applyFallback_shape config cc s u
  rw [h]

@[simp]
theorem applyFallback_cfDhuhr (config : ResolvedInput) (cc : CC) (s : Slab)
    (u : UF) : (applyFallback config cc s u).1.cfDhuhr = s.cfDhuhr := by
  obtain ⟨mf, cf, mi, ci, fF, iF, h⟩ := applyFallback_shape config cc s u
  rw [h]

@[simp]
theorem applyFallback_cfAsr (config : ResolvedInput) (cc : CC) (s : Slab)
    (u : UF) : (applyFallback config cc s u).1.cfAsr = s.cfAsr := by
  obtain ⟨mf, cf, mi, ci, fF, iF, h⟩ := applyFallback_shape config cc s u
  rw [h]

@[simp]
theorem applyFallback_cfMaghrib (config : ResolvedInput) (cc : CC) (s : Slab)
    (u : UF) : (applyFallback config cc s u).1.cfMaghrib = s.cfMaghrib := by
  obtain ⟨mf, cf, mi, ci, fF, iF, h⟩ := applyFallback_shape config cc s u
  rw [h]

@[simp]
theorem applyFallback_taFajr (config : ResolvedInput) (cc : CC) (s : Slab)
    (u : UF) : (applyFallback config cc s u).1.taFajr = s.taFajr := by
  obtain ⟨mf, cf, mi, ci, fF, iF, h⟩ := applyFallback_shape config cc s u
  rw [h]

@[simp]
theorem applyFallback_taSunrise (config : ResolvedInput) (cc : CC) (s : Slab)
    (u : UF) : (applyFallback config cc s u).1.taSunrise = s.taSunrise := by
  obtain ⟨mf, cf, mi, ci, fF, iF, h⟩ := applyFallback_shape config cc s u
  rw [h]

@[simp]
theorem applyFallback_taDhuhr (config : ResolvedInput) (cc : CC) (s : Slab)
    (u : UF) : (applyFallback config cc s u).1.taDhuhr = s.taDhuhr := by
  obtain ⟨mf, cf, mi, ci, fF, iF, h⟩ := applyFallback_shape config cc s u
  rw [h]

@[simp]
theorem applyFallback_taAsr (config : ResolvedInput) (cc : CC) (s : Slab)
    (u : UF) : (applyFallback config cc s u).1.taAsr = s.taAsr := by
  obtain ⟨mf, cf, mi, ci, fF, iF, h⟩ := applyFallback_shape config cc s u
  rw [h]

@[simp]
theorem applyFallback_taMaghrib (config : ResolvedInput) (cc : CC) (s : Slab)
    (u : UF) : (applyFallback config cc s u).1.taMaghrib = s.taMaghrib := by
  obtain ⟨mf, cf, mi, ci, fF, iF, h⟩ := applyFallback_shape config cc s u
  rw [h]

@[simp]
theorem applyFallback_taIsha (config : ResolvedInput) (cc : CC) (s : Slab)
    (u : UF) : (applyFallback config cc s u).1.taIsha = s.taIsha := by
  obtain ⟨mf, cf, mi, ci, fF, iF, h⟩ := applyFallback_shape config cc s u
  rw [h]

@[simp]
theorem applyFallback_metaDecl (config : ResolvedInput) (cc : CC) (s : Slab)
    (u : UF) : (applyFallback config cc s u).1.metaDecl = s.metaDecl := by
  obtain ⟨mf, cf, mi, ci, fF, iF, h⟩ := applyFallback_shape config cc s u
  rw [h]

@[simp]
theorem applyFallback_metaEqt (config : ResolvedInput) (cc : CC) (s : Slab)
    (u : UF) : (applyFallback config cc s u).1.metaEqt = s.metaEqt := by
  obtain ⟨mf, cf, mi, ci, fF, iF, h⟩ := applyFallback_shape config cc s u
  rw [h]

@[simp]
theorem applyFallback_metaNoon (config : ResolvedInput) (cc : CC) (s : Slab)
    (u : UF) : (applyFallback config cc s u).1.metaNoon = s.metaNoon := by
  obtain ⟨mf, cf, mi, ci, fF, iF, h⟩ := applyFallback_shape config cc s u
  rw [h]

@[simp]
theorem applyFallback_metaJd (config : ResolvedInput) (cc : CC) (s : Slab)
    (u : UF) : (applyFallback config cc s u).1.metaJd = s.metaJd := by
  obtain ⟨mf, cf, mi, ci, fF, iF, h⟩ := applyFallback_shape config cc s u
  rw [h]

@[simp]
theorem applyFallback_sunsetRaw (config : ResolvedInput) (cc : CC) (s : Slab)
    (u : UF) : (applyFallback config cc s u).1.sunsetRaw = s.sunsetRaw := by
  obtain ⟨mf, cf, mi, ci, fF, iF, h⟩ := applyFallback_shape config cc s u
  rw [h]

@[simp]
theorem applyFallback_uf_sunrise (config : ResolvedInput) (cc : CC) (s : Slab)
    (u : UF) : (applyFallback config cc s u).2.sunrise = u.sunrise := by
  obtain ⟨mf, cf, mi, ci, fF, iF, h⟩ := applyFallback_shape config cc s u
  rw [h]

@[simp]
theorem applyFallback_uf_asr (config : ResolvedInput) (cc : CC) (s : Slab)
    (u : UF) : (applyFallback config cc s u).2.asr = u.asr := by
  obtain ⟨mf, cf, mi, ci, fF, iF, h⟩ := applyFallback_shape config cc s u
  rw [h]

@[simp]
theorem applyFallback_uf_sunset (config : ResolvedInput) (cc : CC) (s : Slab)
    (u : UF) : (applyFallback config cc s u).2.sunset = u.sunset := by
  obtain ⟨mf, cf, mi, ci, fF, iF, h⟩ := applyFallback_shape config cc s u
  rw [h]

/-- A defined fajr is never rewritten by the fallback. -/
theorem applyFallback_fajr_defined (config : ResolvedInput) (cc : CC)
    (s : Slab) (u : UF) (h : u.fajr = false) :
    (applyFallback config cc s u).1.msFajr = s.msFajr ∧
    (applyFallback config cc s u).1.cfFajr = s.cfFajr ∧
    (applyFallback config cc s u).2.fajr = false := by
  unfold applyFallback; dsimp only; split_ifs <;> simp_all

/-- A defined isha is never rewritten by the fallback. -/
theorem applyFallback_isha_defined (config : ResolvedInput) (cc : CC)
    (s : Slab) (u : UF) (h : u.isha = false) :
    (applyFallback config cc s u).1.msIsha = s.msIsha ∧
    (applyFallback config cc s u).1.cfIsha = s.cfIsha ∧
    (applyFallback config cc s u).2.isha = false := by
  unfold applyFallback; dsimp only; split_ifs <;> simp_all

/-- The reason of a result, `none` when valid. -/
def reasonOf : PrayerTimeResult → Option String
  | .valid _ _ => Option.none
  | .undef r _ => some r

/-! ### Concrete evaluation inputs.  `ceT` is a constant-valued trig
oracle, `ceDC` a day-constants record with zero interpolation terms, unit
`cosD2` and UTC-midnight 0; `ceCfg` an equatorial configuration whose
maghrib adjustment is −1 minute.  Under them every primary event is
defined and every branch of the kernel is exactly computable. -/

def ceT : Trig :=
  ⟨fun _ => 1/2, fun _ => 1, fun _ => 60, fun _ => 45, fun _ => 0⟩

def ceDC : DayConstants := ⟨0, 0, 0, 0, 0, 0, 0, 0, 1, 0, 0⟩

def ceCfg : ResolvedInput :=
  { latitude := 0, longitude := 0, date := 0
    method := ⟨18, 17, Option.none, Option.none⟩
    madhab := .standard, highLatRule := .none, polarRule := .unresolved
    adjustments := ⟨0, 0, 0, 0, -1, 0⟩, elevation := 0 }

/-- C1 counterexample: a configuration with maghrib adjustment −1 minute
and a date on which all six primary events are defined, yet
maghrib = 29139984 < 29199984 = sunset, refuting `sunset ≤ maghrib`. -/
theorem ordering_chain_cex :
    (computeCore ceT ceCfg ceDC slab0).2 =
      ⟨false, false, false, false, false⟩ ∧
    msOf ((output (computeCore ceT ceCfg ceDC slab0).1
      (computeCore ceT ceCfg ceDC slab0).2).sunset) = some 29199984 ∧
    msOf ((output (computeCore ceT ceCfg ceDC slab0).1
      (computeCore ceT ceCfg ceDC slab0).2).maghrib) = some 29139984 ∧
    ¬((29199984 : ℚ) ≤ 29139984) := by
  norm_num [computeCore, computeCoreCC, preComputeCC, applyFallback, ishaLanes,
    output, vFrom, undefFrom, decodeCF, msOf, fajrU, sunU, asrU, ishaAngleU,
    outOfRange, clampFlag, cosH0Fajr, cosH0Horizon, cosH0Asr, cosH0Isha,
    cosH0Of, sinLatSinD2, cosLatCosD2, fajrLaneMs, sunriseLaneMs, sunsetRawMs,
    maghribLaneMs, dhuhrLaneMs, asrLaneMs, ishaAngleLaneMs, asrAlt, cha, m0,
    transitH, transitUtcH, thetaAt, raAt, raNorm, declAt, red360, tAcosC,
    clamp1, mkCC, mkCCKey, ccKeyOf, julianDateOfMs, EPSILON, NEG_COS_BOUND,
    POS_COS_BOUND, slab0, ceT, ceDC, ceCfg]

/-- Projection: the maghrib adjustment in ms. -/
theorem mkCC_adjMaghribMs (T : Trig) (config : ResolvedInput) :
    (mkCC T config).adjMaghribMs = config.adjustments.maghrib * 60000 := rfl

/-- C1 (amended): whenever sunset is defined, the reported sunset is the
raw slot-28 value and maghrib equals raw sunset plus the maghrib minute
adjustment exactly; hence `sunset ≤ maghrib` holds iff the maghrib
adjustment is nonnegative, with equality iff it is zero.  (The claim's
unconditional chain fails: adjustments can reorder the events, see the
counterexample.) -/
theorem maghrib_anchors_to_sunset (T : Trig) (config : ResolvedInput)
    (dc : DayConstants) (s0 : Slab)
    (h : (computeCore T config dc s0).2.sunset = false) :
    msOf ((output (computeCore T config dc s0).1
        (computeCore T config dc s0).2).sunset) =
      some ((computeCore T config dc s0).1.sunsetRaw) ∧
    msOf ((output (computeCore T config dc s0).1
        (computeCore T config dc s0).2).maghrib) =
      some ((computeCore T config dc s0).1.sunsetRaw +
        config.adjustments.maghrib * 60000) ∧
    ((computeCore T config dc s0).1.sunsetRaw ≤
        (computeCore T config dc s0).1.sunsetRaw +
          config.adjustments.maghrib * 60000 ↔
      0 ≤ config.adjustments.maghrib) ∧
    ((computeCore T config dc s0).1.sunsetRaw =
        (computeCore T config dc s0).1.sunsetRaw +
          config.adjustments.maghrib * 60000 ↔
      config.adjustments.maghrib = 0) := by
  have hs : sunU (mkCC T config) dc = false := by
    simpa [computeCore, computeCoreCC, preComputeCC] using h
  refine ⟨?_, ?_, ?_, ?_⟩
  · simp [computeCore, computeCoreCC, output, msOf, vFrom,
      applyFallback_uf_sunset, preComputeCC, hs]
  · simp [computeCore, computeCoreCC, output, msOf, vFrom,
      applyFallback_uf_sunset, preComputeCC, hs, maghribLaneMs,
      mkCC_adjMaghribMs]
  · rw [le_add_iff_nonneg_right]
    exact mul_nonneg_iff_of_pos_right (by norm_num)
  · rw [self_eq_add_right, mul_eq_zero]
    simp

/-- Witness for the amended C1 at the concrete input. -/
theorem maghrib_anchors_to_sunset_witness :
    msOf ((output (computeCore ceT ceCfg ceDC slab0).1
        (computeCore ceT ceCfg ceDC slab0).2).maghrib) =
      some ((computeCore ceT ceCfg ceDC slab0).1.sunsetRaw +
        ceCfg.adjustments.maghrib * 60000) :=
  (maghrib_anchors_to_sunset ceT ceCfg ceDC slab0 (by
    norm_num [computeCore, computeCoreCC, preComputeCC, applyFallback, sunU,
      outOfRange, cosH0Horizon, cosH0Of, sinLatSinD2, cosLatCosD2, mkCC,
      mkCCKey, ccKeyOf, EPSILON, NEG_COS_BOUND, POS_COS_BOUND, ceT, ceDC,
      ceCfg])).2.1

/-! ### C5: the maghrib adjustment is invisible to night division -/

theorem sunU_adjM (cc : CC) (a : ℚ) (dc : DayConstants) :
    sunU { cc with adjMaghribMs := a } dc = sunU cc dc := rfl

theorem sunsetRawMs_adjM (T : Trig) (cc : CC) (a : ℚ) (dc : DayConstants) :
    sunsetRawMs T { cc with adjMaghribMs := a } dc = sunsetRawMs T cc dc := rfl

theorem sunriseLaneMs_adjM (T : Trig) (cc : CC) (a : ℚ) (dc : DayConstants) :
    sunriseLaneMs T { cc with adjMaghribMs := a } dc = sunriseLaneMs T cc dc :=
  rfl

theorem cosH0Horizon_adjM (cc : CC) (a : ℚ) (dc : DayConstants) :
    cosH0Horizon { cc with adjMaghribMs := a } dc = cosH0Horizon cc dc := rfl

/-- C5: two configurations identical except in the maghrib minute
adjustment produce identical midnight, first-third, last-third and
reported sunset: night division anchors to raw sunset (slot 28), never to
the adjusted maghrib (slot 4). -/
theorem night_division_ignores_maghrib_adjustment (T : Trig)
    (config : ResolvedInput) (dc : DayConstants) (s0 : Slab) (x : ℚ) :
    ((output (computeCore T
        { config with adjustments := { config.adjustments with maghrib := x } }
        dc s0).1 (computeCore T
        { config with adjustments := { config.adjustments with maghrib := x } }
        dc s0).2).midnight =
      (output (computeCore T config dc s0).1
        (computeCore T config dc s0).2).midnight) ∧
    ((output (computeCore T
        { config with adjustments := { config.adjustments with maghrib := x } }
        dc s0).1 (computeCore T
        { config with adjustments := { config.adjustments with maghrib := x } }
        dc s0).2).firstThird =
      (output (computeCore T config dc s0).1
        (computeCore T config dc s0).2).firstThird) ∧
    ((output (computeCore T
        { config with adjustments := { config.adjustments with maghrib := x } }
        dc s0).1 (computeCore T
        { config with adjustments := { config.adjustments with maghrib := x } }
        dc s0).2).lastThird =
      (output (computeCore T config dc s0).1
        (computeCore T config dc s0).2).lastThird) ∧
    ((output (computeCore T
        { config with adjustments := { config.adjustments with maghrib := x } }
        dc s0).1 (computeCore T
        { config with adjustments := { config.adjustments with maghrib := x } }
        dc s0).2).sunset =
      (output (computeCore T config dc s0).1
        (computeCore T config dc s0).2).sunset) := by
  have hcc : mkCC T
      { config with adjustments := { config.adjustments with maghrib := x } } =
      { mkCC T config with adjMaghribMs := x * 60000 } := rfl
  refine ⟨?_, ?_, ?_, ?_⟩ <;>
    simp [output, computeCore, computeCoreCC, preComputeCC, hcc, sunU_adjM,
      sunsetRawMs_adjM, sunriseLaneMs_adjM, cosH0Horizon_adjM]

/-! ### C8: imsak -/

/-- C8: whenever fajr is defined, imsak is valid and equals
`fajr − 600000` ms exactly. -/
theorem imsak_eq_fajr_minus_600000 (T : Trig) (config : ResolvedInput)
    (dc : DayConstants) (s0 : Slab)
    (h : (computeCore T config dc s0).2.fajr = false) :
    (output (computeCore T config dc s0).1
        (computeCore T config dc s0).2).imsak =
      .valid ((computeCore T config dc s0).1.msFajr - 600000) DERIVED_DIAG ∧
    msOf ((output (computeCore T config dc s0).1
        (computeCore T config dc s0).2).fajr) =
      some ((computeCore T config dc s0).1.msFajr) := by
  constructor
  · simp [output, h]
    norm_num
  · simp [output, h, msOf, vFrom]

/-- Witness for C8 at the concrete input. -/
theorem imsak_eq_fajr_minus_600000_witness :
    (output (computeCore ceT ceCfg ceDC slab0).1
        (computeCore ceT ceCfg ceDC slab0).2).imsak =
      .valid ((computeCore ceT ceCfg ceDC slab0).1.msFajr - 600000)
        DERIVED_DIAG :=
  (imsak_eq_fajr_minus_600000 ceT ceCfg ceDC slab0 (by
    norm_num [computeCore, computeCoreCC, preComputeCC, applyFallback, fajrU,
      outOfRange, cosH0Fajr, cosH0Of, sinLatSinD2, cosLatCosD2, mkCC,
      mkCCKey, ccKeyOf, EPSILON, NEG_COS_BOUND, POS_COS_BOUND, ceT, ceDC,
      ceCfg])).1

/-! ### C6: undefined propagation -/

def ce2T : Trig :=
  ⟨fun _ => 1, fun _ => 1, fun _ => 60, fun _ => 45, fun _ => 0⟩

def ce2DC : DayConstants := ⟨0, 0, 0, 0, 0, 0, 0, -1, 1/2, 0, 0⟩

def ce2Cfg : ResolvedInput :=
  { latitude := 0, longitude := 0, date := 0
    method := ⟨18, 17, Option.none, Option.none⟩
    madhab := .standard, highLatRule := .middle_of_night
    polarRule := .unresolved, adjustments := ⟨0, 0, 0, 0, 0, 0⟩
    elevation := 0 }

/-- C6 (amended): sunrise and sunset share the undefined bit; undefined
sunset forces maghrib undefined with reason "sun never reaches target
altitude" (not the night-division reason) and midnight, first third and
last third undefined with reason "sunset or sunrise undefined"; undefined
fajr forces imsak undefined with reason "fajr is undefined". -/
theorem undef_propagation (T : Trig) (config : ResolvedInput)
    (dc : DayConstants) (s0 : Slab) :
    ((computeCore T config dc s0).2.sunrise =
      (computeCore T config dc s0).2.sunset) ∧
    ((computeCore T config dc s0).2.sunset = true →
      (output (computeCore T config dc s0).1
          (computeCore T config dc s0).2).maghrib =
        undefFrom (computeCore T config dc s0).1.coMaghrib
          (computeCore T config dc s0).1.taMaghrib ∧
      reasonOf ((output (computeCore T config dc s0).1
          (computeCore T config dc s0).2).maghrib) =
        some ("sun never reaches target altitude") ∧
      (output (computeCore T config dc s0).1
          (computeCore T config dc s0).2).midnight = UNDEF_NIGHT ∧
      (output (computeCore T config dc s0).1
          (computeCore T config dc s0).2).firstThird = UNDEF_NIGHT ∧
      (output (computeCore T config dc s0).1
          (computeCore T config dc s0).2).lastThird = UNDEF_NIGHT) ∧
    ((computeCore T config dc s0).2.fajr = true →
      (output (computeCore T config dc s0).1
          (computeCore T config dc s0).2).imsak = UNDEF_FAJR) := by
  have hrs : (computeCore T config dc s0).2.sunrise =
      (computeCore T config dc s0).2.sunset := by
    simp [computeCore, computeCoreCC, preComputeCC]
  refine ⟨hrs, fun h => ?_, fun h => ?_⟩
  · have hr : (computeCore T config dc s0).2.sunrise = true := hrs.trans h
    refine ⟨?_, ?_, ?_, ?_, ?_⟩ <;>
      simp [output, h, hr, undefFrom, reasonOf, UNDEFINED_REASON]
  · simp [output, h]

/-- C6 counterexample: with sunset undefined, maghrib's reason is
"sun never reaches target altitude", not "sunset or sunrise undefined"
as claimed. -/
theorem undef_reason_cex :
    (computeCore ce2T ce2Cfg ce2DC slab0).2.sunset = true ∧
    reasonOf ((output (computeCore ce2T ce2Cfg ce2DC slab0).1
        (computeCore ce2T ce2Cfg ce2DC slab0).2).maghrib) =
      some ("sun never reaches target altitude") ∧
    "sun never reaches target altitude" ≠ "sunset or sunrise undefined" := by
  refine ⟨?_, ?_, by decide⟩ <;>
    norm_num [computeCore, computeCoreCC, preComputeCC, applyFallback,
      ishaLanes, output, vFrom, undefFrom, decodeCF, reasonOf, fajrU, sunU,
      asrU, ishaAngleU, outOfRange, cosH0Fajr, cosH0Horizon, cosH0Asr,
      cosH0Isha, cosH0Of, sinLatSinD2, cosLatCosD2, asrAlt, transitUtcH,
      transitH, thetaAt, raAt, raNorm, declAt, red360, m0, tAcosC, clamp1,
      mkCC, mkCCKey, ccKeyOf, UNDEFINED_REASON, EPSILON, NEG_COS_BOUND,
      POS_COS_BOUND, slab0, ce2T, ce2DC, ce2Cfg]

/-- Witness for the amended C6 at the concrete polar-style input. -/
theorem undef_propagation_witness :
    (output (computeCore ce2T ce2Cfg ce2DC slab0).1
        (computeCore ce2T ce2Cfg ce2DC slab0).2).midnight = UNDEF_NIGHT :=
  ((undef_propagation ce2T ce2Cfg ce2DC slab0).2.1 (by
    norm_num [computeCore, computeCoreCC, preComputeCC, applyFallback, sunU,
      outOfRange, cosH0Horizon, cosH0Of, sinLatSinD2, cosLatCosD2, mkCC,
      mkCCKey, ccKeyOf, EPSILON, NEG_COS_BOUND, POS_COS_BOUND, ce2T, ce2DC,
      ce2Cfg])).2.2.1
/-! ### C3: high-latitude fallback -/

theorem mkCC_adjFajrMs (T : Trig) (config : ResolvedInput) :
    (mkCC T config).adjFajrMs = config.adjustments.fajr * 60000 := rfl

theorem mkCC_adjIshaMs (T : Trig) (config : ResolvedInput) :
    (mkCC T config).adjIshaMs = config.adjustments.isha * 60000 := rfl

/-- Rule `none` leaves the whole pre-fallback state untouched. -/
theorem applyFallback_none_rule (config : ResolvedInput) (cc : CC)
    (s : Slab) (u : UF) (h : config.highLatRule = .none) :
    applyFallback config cc s u = (s, u) := by
  unfold applyFallback
  simp [h]

/-- Undefined sunset disables the fallback. -/
theorem applyFallback_sun_undef (config : ResolvedInput) (cc : CC)
    (s : Slab) (u : UF) (h : u.sunset = true) :
    applyFallback config cc s u = (s, u) := by
  unfold applyFallback
  simp [h]

/-- The fajr rewrite of the fallback, on an arbitrary slab state. -/
theorem applyFallback_fajr_rewrite (config : ResolvedInput) (cc : CC)
    (s : Slab) (u : UF) (h1 : config.highLatRule ≠ .none)
    (hsr : u.sunrise = false) (hss : u.sunset = false) (hf : u.fajr = true)
    (hn : 0 < s.msSunrise + 86400000 - s.sunsetRaw) :
    (applyFallback config cc s u).2.fajr = false ∧
    (applyFallback config cc s u).1.msFajr =
      (if config.highLatRule = .middle_of_night then
        s.sunsetRaw + (s.msSunrise + 86400000 - s.sunsetRaw) * (1/2)
      else if config.highLatRule = .seventh_of_night then
        (s.msSunrise + 86400000) - (s.msSunrise + 86400000 - s.sunsetRaw) / 7
      else
        (s.msSunrise + 86400000) - config.method.fajr / 60 *
          (s.msSunrise + 86400000 - s.sunsetRaw)) + cc.adjFajrMs ∧
    (applyFallback config cc s u).1.cfFajr =
      (if config.highLatRule = .middle_of_night then 4
       else if config.highLatRule = .seventh_of_night then 8 else 16) := by
  unfold applyFallback
  dsimp only
  simp only [h1, hsr, hss, hf]
  simp only [ne_eq, not_false_iff, true_and, Bool.false_or, Bool.true_or,
    if_true, if_pos hn]
  cases hfv : u.isha <;> simp [hfv, h1]

/-- The isha rewrite of the fallback, on an arbitrary slab state. -/
theorem applyFallback_isha_rewrite (config : ResolvedInput) (cc : CC)
    (s : Slab) (u : UF) (h1 : config.highLatRule ≠ .none)
    (hsr : u.sunrise = false) (hss : u.sunset = false) (hi : u.isha = true)
    (hn : 0 < s.msSunrise + 86400000 - s.sunsetRaw) :
    (applyFallback config cc s u).2.isha = false ∧
    (applyFallback config cc s u).1.msIsha =
      (if config.highLatRule = .middle_of_night then
        s.sunsetRaw + (s.msSunrise + 86400000 - s.sunsetRaw) * (1/2)
      else if config.highLatRule = .seventh_of_night then
        s.sunsetRaw + (s.msSunrise + 86400000 - s.sunsetRaw) / 7
      else
        s.sunsetRaw + config.method.isha / 60 *
          (s.msSunrise + 86400000 - s.sunsetRaw)) + cc.adjIshaMs ∧
    (applyFallback config cc s u).1.cfIsha =
      (if config.highLatRule = .middle_of_night then 4
       else if config.highLatRule = .seventh_of_night then 8 else 16) := by
  unfold applyFallback
  dsimp only
  simp only [h1, hsr, hss, hi]
  simp only [ne_eq, not_false_iff, true_and, Bool.or_true, Bool.true_or,
    if_true, if_pos hn]
  cases hfv : u.fajr <;> simp [hfv, h1]

/-- C3: when the rule is not `none`, sunrise/sunset are defined and the
night `next-day sunrise − raw sunset` is strictly positive, an undefined
fajr is rewritten to sunset + night/2 (middle), next sunrise − night/7
(seventh) or next sunrise − (fajr angle/60)·night (twilight), plus the
fajr minute adjustment, with the undefined bit cleared and the fallback
flag (4/8/16) recorded; symmetrically for isha (sunset + night/7,
sunset + (isha angle/60)·night).  Under rule `none`, undefined sunset, or
night ≤ 0, the pre-fallback state is returned untouched. -/
theorem highlat_fallback_spec (T : Trig) (config : ResolvedInput)
    (dc : DayConstants) (s0 : Slab) :
    (config.highLatRule = .none →
      computeCore T config dc s0 =
        preComputeCC T config (mkCC T config) dc s0) ∧
    ((preComputeCC T config (mkCC T config) dc s0).2.sunset = true →
      computeCore T config dc s0 =
        preComputeCC T config (mkCC T config) dc s0) ∧
    ((preComputeCC T config (mkCC T config) dc s0).1.msSunrise + 86400000 -
        (preComputeCC T config (mkCC T config) dc s0).1.sunsetRaw ≤ 0 →
      computeCore T config dc s0 =
        preComputeCC T config (mkCC T config) dc s0) ∧
    (config.highLatRule ≠ .none →
      (preComputeCC T config (mkCC T config) dc s0).2.sunset = false →
      0 < (preComputeCC T config (mkCC T config) dc s0).1.msSunrise +
        86400000 - (preComputeCC T config (mkCC T config) dc s0).1.sunsetRaw →
      (preComputeCC T config (mkCC T config) dc s0).2.fajr = true →
      (computeCore T config dc s0).2.fajr = false ∧
      (computeCore T config dc s0).1.msFajr =
        (if config.highLatRule = .middle_of_night then
          (preComputeCC T config (mkCC T config) dc s0).1.sunsetRaw +
            ((preComputeCC T config (mkCC T config) dc s0).1.msSunrise +
              86400000 -
              (preComputeCC T config (mkCC T config) dc s0).1.sunsetRaw) *
              (1/2)
        else if config.highLatRule = .seventh_of_night then
          ((preComputeCC T config (mkCC T config) dc s0).1.msSunrise +
            86400000) -
            ((preComputeCC T config (mkCC T config) dc s0).1.msSunrise +
              86400000 -
              (preComputeCC T config (mkCC T config) dc s0).1.sunsetRaw) / 7
        else
          ((preComputeCC T config (mkCC T config) dc s0).1.msSunrise +
            86400000) -
            config.method.fajr / 60 *
            ((preComputeCC T config (mkCC T config) dc s0).1.msSunrise +
              86400000 -
              (preComputeCC T config (mkCC T config) dc s0).1.sunsetRaw)) +
        config.adjustments.fajr * 60000 ∧
      (computeCore T config dc s0).1.cfFajr =
        (if config.highLatRule = .middle_of_night then 4
         else if config.highLatRule = .seventh_of_night then 8 else 16)) ∧
    (config.highLatRule ≠ .none →
      (preComputeCC T config (mkCC T config) dc s0).2.sunset = false →
      0 < (preComputeCC T config (mkCC T config) dc s0).1.msSunrise +
        86400000 - (preComputeCC T config (mkCC T config) dc s0).1.sunsetRaw →
      (preComputeCC T config (mkCC T config) dc s0).2.isha = true →
      (computeCore T config dc s0).2.isha = false ∧
      (computeCore T config dc s0).1.msIsha =
        (if config.highLatRule = .middle_of_night then
          (preComputeCC T config (mkCC T config) dc s0).1.sunsetRaw +
            ((preComputeCC T config (mkCC T config) dc s0).1.msSunrise +
              86400000 -
              (preComputeCC T config (mkCC T config) dc s0).1.sunsetRaw) *
              (1/2)
        else if config.highLatRule = .seventh_of_night then
          (preComputeCC T config (mkCC T config) dc s0).1.sunsetRaw +
            ((preComputeCC T config (mkCC T config) dc s0).1.msSunrise +
              86400000 -
              (preComputeCC T config (mkCC T config) dc s0).1.sunsetRaw) / 7
        else
          (preComputeCC T config (mkCC T config) dc s0).1.sunsetRaw +
            config.method.isha / 60 *
            ((preComputeCC T config (mkCC T config) dc s0).1.msSunrise +
              86400000 -
              (preComputeCC T config (mkCC T config) dc s0).1.sunsetRaw)) +
        config.adjustments.isha * 60000 ∧
      (computeCore T config dc s0).1.cfIsha =
        (if config.highLatRule = .middle_of_night then 4
         else if config.highLatRule = .seventh_of_night then 8 else 16)) := by
  refine ⟨fun h => ?_, fun h => ?_, fun h => ?_, fun h1 h2 h3 h4 => ?_,
    fun h1 h2 h3 h4 => ?_⟩
  · simp only [computeCore, computeCoreCC]
    rw [applyFallback_none_rule _ _ _ _ h]
  · simp only [computeCore, computeCoreCC]
    rw [applyFallback_sun_undef _ _ _ _ h]
  · simp only [computeCore, computeCoreCC]
    unfold applyFallback
    dsimp only
    split_ifs <;> first | rfl | linarith
  · have hsr : (preComputeCC T config (mkCC T config) dc s0).2.sunrise =
        false := by
      have he : (preComputeCC T config (mkCC T config) dc s0).2.sunrise =
          (preComputeCC T config (mkCC T config) dc s0).2.sunset := rfl
      rw [he, h2]
    have hr := applyFallback_fajr_rewrite config (mkCC T config)
      (preComputeCC T config (mkCC T config) dc s0).1
      (preComputeCC T config (mkCC T config) dc s0).2 h1 hsr h2 h4 h3
    simp only [computeCore, computeCoreCC]
    exact ⟨hr.1, hr.2.1.trans (by rw [mkCC_adjFajrMs]), hr.2.2⟩
  · have hsr : (preComputeCC T config (mkCC T config) dc s0).2.sunrise =
        false := by
      have he : (preComputeCC T config (mkCC T config) dc s0).2.sunrise =
          (preComputeCC T config (mkCC T config) dc s0).2.sunset := rfl
      rw [he, h2]
    have hr := applyFallback_isha_rewrite config (mkCC T config)
      (preComputeCC T config (mkCC T config) dc s0).1
      (preComputeCC T config (mkCC T config) dc s0).2 h1 hsr h2 h4 h3
    simp only [computeCore, computeCoreCC]
    exact ⟨hr.1, hr.2.1.trans (by rw [mkCC_adjIshaMs]), hr.2.2⟩

/-- A high-latitude trig oracle: twilight sines out of range, horizon
sine in range. -/
def hlT : Trig :=
  ⟨fun x => if x < -10 then -3 else 1/2, fun _ => 1, fun _ => 60,
    fun _ => 45, fun _ => 0⟩

def hlCfg : ResolvedInput :=
  { latitude := 0, longitude := 0, date := 0
    method := ⟨18, 17, Option.none, Option.none⟩
    madhab := .standard, highLatRule := .middle_of_night
    polarRule := .unresolved, adjustments := ⟨0, 0, 0, 0, 0, 0⟩
    elevation := 0 }

/-- Witness for C3: at the concrete high-latitude input, the undefined
fajr bit is cleared by the middle-of-night rewrite. -/
theorem highlat_fallback_spec_witness :
    (computeCore hlT hlCfg ceDC slab0).2.fajr = false :=
  ((highlat_fallback_spec hlT hlCfg ceDC slab0).2.2.2.1 (by decide)
    (by norm_num [preComputeCC, ishaLanes, sunU, fajrU, asrU, ishaAngleU,
      outOfRange, cosH0Fajr, cosH0Horizon, cosH0Asr, cosH0Isha, cosH0Of,
      sinLatSinD2, cosLatCosD2, asrAlt, transitUtcH, transitH, thetaAt, raAt,
      raNorm, declAt, red360, m0, tAcosC, clamp1, mkCC, mkCCKey, ccKeyOf,
      EPSILON, NEG_COS_BOUND, POS_COS_BOUND, slab0, hlT, ceDC, hlCfg])
    (by norm_num [preComputeCC, ishaLanes, sunU, fajrU, asrU, ishaAngleU,
      outOfRange, cosH0Fajr, cosH0Horizon, cosH0Asr, cosH0Isha, cosH0Of,
      sinLatSinD2, cosLatCosD2, sunriseLaneMs, sunsetRawMs, cha, asrAlt,
      transitUtcH, transitH, thetaAt, raAt, raNorm, declAt, red360, m0,
      tAcosC, clamp1, mkCC, mkCCKey, ccKeyOf, EPSILON, NEG_COS_BOUND,
      POS_COS_BOUND, slab0, hlT, ceDC, hlCfg])
    (by norm_num [preComputeCC, ishaLanes, sunU, fajrU, asrU, ishaAngleU,
      outOfRange, cosH0Fajr, cosH0Horizon, cosH0Asr, cosH0Isha, cosH0Of,
      sinLatSinD2, cosLatCosD2, asrAlt, transitUtcH, transitH, thetaAt, raAt,
      raNorm, declAt, red360, m0, tAcosC, clamp1, mkCC, mkCCKey, ccKeyOf,
      EPSILON, NEG_COS_BOUND, POS_COS_BOUND, slab0, hlT, ceDC, hlCfg])).1

/-! ### C4: isha interval -/

def c4Cfg : ResolvedInput :=
  { latitude := 0, longitude := 0, date := 0
    method := ⟨18, 17, some 0, Option.none⟩
    madhab := .standard, highLatRule := .none, polarRule := .unresolved
    adjustments := ⟨0, 0, 0, 0, 0, 0⟩, elevation := 0 }

/-- C4 (amended): isha is governed by the interval whenever
`ishaInterval` is non-null — including zero — and sunset is defined:
isha = maghrib + (interval + isha adjustment) minutes, fallback
`interval`, null cosOmega.  When the interval is absent (or sunset is
undefined) the angle path governs isha. -/
theorem isha_interval_spec (T : Trig) (config : ResolvedInput)
    (dc : DayConstants) (s0 : Slab) (iv : ℚ) :
    ((config.method.ishaInterval = some iv ∧
        sunU (mkCC T config) dc = false) →
      (computeCore T config dc s0).2.isha = false ∧
      (output (computeCore T config dc s0).1
          (computeCore T config dc s0).2).isha =
        .valid (maghribLaneMs T (mkCC T config) dc +
            (iv + config.adjustments.isha) * 60000)
          ⟨Option.none, false, some .interval, 0⟩) ∧
    ((config.method.ishaInterval = Option.none ∨
        sunU (mkCC T config) dc = true) →
      (preComputeCC T config (mkCC T config) dc s0).1.coIsha =
        some (cosH0Isha (mkCC T config) dc) ∧
      (preComputeCC T config (mkCC T config) dc s0).1.taIsha =
        (mkCC T config).ishaAlt ∧
      (ishaAngleU (mkCC T config) dc = false →
        (preComputeCC T config (mkCC T config) dc s0).1.msIsha =
          ishaAngleLaneMs T (mkCC T config) dc ∧
        (preComputeCC T config (mkCC T config) dc s0).2.isha = false) ∧
      (ishaAngleU (mkCC T config) dc = true →
        (preComputeCC T config (mkCC T config) dc s0).2.isha = true)) := by
  constructor
  · rintro ⟨hint, hsun⟩
    have hil : ishaLanes T config (mkCC T config) dc s0 =
        (maghribLaneMs T (mkCC T config) dc +
          (iv + config.adjustments.isha) * 60000,
          Option.none, 2, 0, false) := by
      simp [ishaLanes, hint, hsun]
    have hpre : (preComputeCC T config (mkCC T config) dc s0).2.isha =
        false := by
      simp [preComputeCC, hil]
    have hd := applyFallback_isha_defined config (mkCC T config)
      (preComputeCC T config (mkCC T config) dc s0).1
      (preComputeCC T config (mkCC T config) dc s0).2 hpre
    refine ⟨by simpa [computeCore, computeCoreCC] using hd.2.2, ?_⟩
    have hms : (preComputeCC T config (mkCC T config) dc s0).1.msIsha =
        maghribLaneMs T (mkCC T config) dc +
          (iv + config.adjustments.isha) * 60000 := by
      simp [preComputeCC, hil]
    have hcf : (preComputeCC T config (mkCC T config) dc s0).1.cfIsha = 2 :=
      by simp [preComputeCC, hil]
    have hco : (preComputeCC T config (mkCC T config) dc s0).1.coIsha =
        Option.none := by simp [preComputeCC, hil]
    have hta : (preComputeCC T config (mkCC T config) dc s0).1.taIsha = 0 :=
      by simp [preComputeCC, hil]
    simp only [computeCore, computeCoreCC, output, hd.2.2, Bool.false_eq_true,
      if_false, applyFallback_coIsha, applyFallback_taIsha, hd.1, hd.2.1,
      hms, hcf, hco, hta, vFrom, decodeCF]
    norm_num [Nat.testBit]
    decide
  · rintro (hnone | hsunT)
    · cases hU : ishaAngleU (mkCC T config) dc <;>
        simp [preComputeCC, ishaLanes, hnone, hU]
    · cases hint2 : config.method.ishaInterval <;>
      cases hU : ishaAngleU (mkCC T config) dc <;>
        simp [preComputeCC, ishaLanes, hsunT, hint2, hU]

/-- C4 counterexample: with `ishaInterval = 0` (present but zero) and
sunset defined, isha is the interval result maghrib + 0 with fallback
`interval` and null cosOmega — not the isha-angle computation, which
would give 36960000 with a recorded cosOmega. -/
theorem isha_interval_zero_cex :
    c4Cfg.method.ishaInterval = some 0 ∧
    (output (computeCore ceT c4Cfg ceDC slab0).1
        (computeCore ceT c4Cfg ceDC slab0).2).isha =
      .valid 29199984 ⟨Option.none, false, some .interval, 0⟩ ∧
    ishaAngleLaneMs ceT (mkCC ceT c4Cfg) ceDC = 36960000 ∧
    (output (computeCore ceT c4Cfg ceDC slab0).1
        (computeCore ceT c4Cfg ceDC slab0).2).isha ≠
      .valid (ishaAngleLaneMs ceT (mkCC ceT c4Cfg) ceDC)
        (decodeCF (some (cosH0Isha (mkCC ceT c4Cfg) ceDC))
          (clampFlag (cosH0Isha (mkCC ceT c4Cfg) ceDC))
          (mkCC ceT c4Cfg).ishaAlt) := by
  norm_num [computeCore, computeCoreCC, preComputeCC, applyFallback, ishaLanes,
    output, vFrom, undefFrom, decodeCF, msOf, fajrU, sunU, asrU, ishaAngleU,
    outOfRange, clampFlag, cosH0Fajr, cosH0Horizon, cosH0Asr, cosH0Isha,
    cosH0Of, sinLatSinD2, cosLatCosD2, fajrLaneMs, sunriseLaneMs, sunsetRawMs,
    maghribLaneMs, dhuhrLaneMs, asrLaneMs, ishaAngleLaneMs, asrAlt, cha, m0,
    transitH, transitUtcH, thetaAt, raAt, raNorm, declAt, red360, tAcosC,
    clamp1, mkCC, mkCCKey, ccKeyOf, julianDateOfMs, EPSILON, NEG_COS_BOUND,
    POS_COS_BOUND, slab0, Nat.testBit, ceT, ceDC, c4Cfg]
  decide

/-- Witness for the amended C4. -/
theorem isha_interval_spec_witness :
    (computeCore ceT c4Cfg ceDC slab0).2.isha = false :=
  ((isha_interval_spec ceT c4Cfg ceDC slab0 0).1 ⟨rfl, by
    norm_num [sunU, outOfRange, cosH0Horizon, cosH0Of, sinLatSinD2,
      cosLatCosD2, mkCC, mkCCKey, ccKeyOf, EPSILON, NEG_COS_BOUND,
      POS_COS_BOUND, ceT, ceDC, c4Cfg]⟩).1
/-! ### C10: default high-latitude rule -/

/-- C10: when `highLatRule` is omitted, both `computePrayerTimes`
(via `_resolve`) and `createPrayerContext` default it to
`middle_of_night`, not `none`. -/
theorem highLatRule_defaults_to_middle (config : PrayerTimeInput)
    (c : PrayerContextConfig) :
    (config.highLatRule = Option.none →
      (resolve config).highLatRule = .middle_of_night) ∧
    (c.highLatRule = Option.none →
      (contextInput c).highLatRule = .middle_of_night) := by
  constructor
  · intro h
    unfold resolve
    split_ifs <;> simp [h]
  · intro h
    simp [contextInput, h]

/-- A minimal public input with `highLatRule` omitted. -/
def c10In : PrayerTimeInput :=
  { latitude := 0, longitude := 0, date := 0
    method := ⟨18, 17, Option.none, Option.none⟩
    madhab := Option.none, highLatRule := Option.none
    polarRule := Option.none, adjustments := Option.none
    elevation := Option.none }

/-- A minimal context configuration with `highLatRule` omitted. -/
def c10Ctx : PrayerContextConfig :=
  { latitude := 0, longitude := 0, elevation := Option.none
    method := ⟨18, 17, Option.none, Option.none⟩
    madhab := Option.none, highLatRule := Option.none
    polarRule := Option.none, adjustments := Option.none }

/-- Witness for C10. -/
theorem highLatRule_defaults_to_middle_witness :
    (resolve c10In).highLatRule = .middle_of_night :=
  (highLatRule_defaults_to_middle c10In c10Ctx).1 rfl

/-! ### C9: qibla bearing (qibla.ts), over exact reals -/

open Classical in
/-- JS `Math.atan2(y, x)` over exact reals (signed zero collapsed to 0). -/
noncomputable def atan2 (y x : ℝ) : ℝ :=
  if 0 < x then Real.arctan (y / x)
  else if x < 0 then
    (if 0 ≤ y then Real.arctan (y / x) + Real.pi
     else Real.arctan (y / x) - Real.pi)
  else
    (if 0 < y then Real.pi / 2 else if y < 0 then -(Real.pi / 2) else 0)

open Classical in
/-- Truncation toward zero (the JS `%` uses the truncated quotient). -/
noncomputable def truncR (x : ℝ) : ℤ := if 0 ≤ x then ⌊x⌋ else -⌊-x⌋

/-- JS remainder `a % b`. -/
noncomputable def jsModR (a b : ℝ) : ℝ := a - b * truncR (a / b)

open Classical in
/-- `normalizeDeg` from units.ts: two fast branches, then
`((d % 360) + 360) % 360`. -/
noncomputable def normalizeDegR (d : ℝ) : ℝ :=
  if 0 ≤ d ∧ d < 360 then d
  else if 360 ≤ d ∧ d < 720 then d - 360
  else if d < 0 ∧ -360 ≤ d then d + 360
  else jsModR (jsModR d 360 + 360) 360

/-- Kaaba latitude, degrees. -/
noncomputable def MAKKAH_LAT : ℝ := 214225241 / 10000000

/-- Kaaba longitude, degrees. -/
noncomputable def MAKKAH_LNG : ℝ := 398261818 / 10000000

/-- `computeQibla(lat, lng)` from qibla.ts. -/
noncomputable def computeQibla (lat lng : ℝ) : ℝ :=
  let dLng := MAKKAH_LNG * (Real.pi / 180) - lng * (Real.pi / 180)
  let latRad := lat * (Real.pi / 180)
  let term1 := Real.sin dLng
  let term2 := Real.cos latRad * Real.tan (MAKKAH_LAT * (Real.pi / 180))
  let term3 := Real.sin latRad * Real.cos dLng
  normalizeDegR (atan2 term1 (term2 - term3) * (180 / Real.pi))

/-- Modelled from the spec: `bearing = normalize(atan2(sin Δλ,
cos φ·tan φ_K − sin φ·cos Δλ))` in degrees, with Δλ = λ_K − λ. -/
noncomputable def qiblaSpec (lat lng : ℝ) : ℝ :=
  normalizeDegR (atan2 (Real.sin ((MAKKAH_LNG - lng) * (Real.pi / 180)))
    (Real.cos (lat * (Real.pi / 180)) *
        Real.tan (MAKKAH_LAT * (Real.pi / 180)) -
      Real.sin (lat * (Real.pi / 180)) *
        Real.cos ((MAKKAH_LNG - lng) * (Real.pi / 180))) * (180 / Real.pi))

theorem jsModR_of_nonneg (a : ℝ) (ha : 0 ≤ a) :
    0 ≤ jsModR a 360 ∧ jsModR a 360 < 360 := by
  have hq : (0:ℝ) ≤ a / 360 := by positivity
  have he : jsModR a 360 = 360 * Int.fract (a / 360) := by
    unfold jsModR truncR
    rw [if_pos hq, Int.fract]
    field_simp
    try ring
  constructor
  · rw [he]
    have := Int.fract_nonneg (a / 360)
    linarith
  · rw [he]
    have := Int.fract_lt_one (a / 360)
    linarith

theorem jsModR_of_neg (a : ℝ) (ha : a < 0) :
    -360 < jsModR a 360 ∧ jsModR a 360 ≤ 0 := by
  have hq : ¬ (0:ℝ) ≤ a / 360 := by
    simp only [not_le]
    exact div_neg_of_neg_of_pos ha (by norm_num)
  have he : jsModR a 360 = -(360 * Int.fract (-a / 360)) := by
    unfold jsModR truncR
    rw [if_neg hq, Int.fract]
    have : -(a / 360) = -a / 360 := by ring
    rw [← this]
    field_simp
    try ring
  constructor
  · rw [he]
    have := Int.fract_lt_one (-a / 360)
    linarith
  · rw [he]
    have := Int.fract_nonneg (-a / 360)
    linarith

theorem normalizeDegR_bounds (d : ℝ) :
    0 ≤ normalizeDegR d ∧ normalizeDegR d < 360 := by
  unfold normalizeDegR
  split_ifs with h1 h2 h3
  · exact h1
  · constructor <;> [linarith [h2.1]; linarith [h2.2]]
  · constructor <;> [linarith [h3.2]; linarith [h3.1]]
  · rcases le_or_lt 0 d with hd | hd
    · have hi := jsModR_of_nonneg d hd
      exact jsModR_of_nonneg (jsModR d 360 + 360) (by linarith [hi.1])
    · have hi := jsModR_of_neg d hd
      exact jsModR_of_nonneg (jsModR d 360 + 360) (by linarith [hi.1])

/-- C9: `computeQibla` is a pure function of (φ, λ) equal to
`normalize(atan2(sin Δλ, cos φ·tan φ_K − sin φ·cos Δλ))` in degrees with
the Kaaba at (21.4225241, 39.8261818) and Δλ = λ_K − λ, and the returned
bearing lies in `[0, 360)`. -/
theorem computeQibla_spec (lat lng : ℝ) :
    computeQibla lat lng = qiblaSpec lat lng ∧
    0 ≤ computeQibla lat lng ∧ computeQibla lat lng < 360 := by
  have he : computeQibla lat lng = qiblaSpec lat lng := by
    unfold computeQibla qiblaSpec
    rw [sub_mul]
  refine ⟨he, ?_, ?_⟩
  · exact (normalizeDegR_bounds _).1
  · exact (normalizeDegR_bounds _).2
/-! ### Slab staleness is invisible in the output view -/

theorem applyFallback_uf_fajr_char (config : ResolvedInput) (cc : CC)
    (s : Slab) (u : UF) :
    (applyFallback config cc s u).2.fajr =
      if config.highLatRule ≠ .none ∧ (u.sunrise || u.sunset) = false ∧
          (u.fajr || u.isha) = true ∧
          0 < s.msSunrise + 86400000 - s.sunsetRaw then false
      else u.fajr := by
  unfold applyFallback
  dsimp only
  split_ifs <;> simp_all

theorem applyFallback_uf_isha_char (config : ResolvedInput) (cc : CC)
    (s : Slab) (u : UF) :
    (applyFallback config cc s u).2.isha =
      if config.highLatRule ≠ .none ∧ (u.sunrise || u.sunset) = false ∧
          (u.fajr || u.isha) = true ∧
          0 < s.msSunrise + 86400000 - s.sunsetRaw then false
      else u.isha := by
  unfold applyFallback
  dsimp only
  split_ifs <;> simp_all

theorem applyFallback_msFajr_char (config : ResolvedInput) (cc : CC)
    (s : Slab) (u : UF) :
    (applyFallback config cc s u).1.msFajr =
      if config.highLatRule ≠ .none ∧ (u.sunrise || u.sunset) = false ∧
          (u.fajr || u.isha) = true ∧
          0 < s.msSunrise + 86400000 - s.sunsetRaw ∧ u.fajr = true then
        (if config.highLatRule = .middle_of_night then
          s.sunsetRaw + (s.msSunrise + 86400000 - s.sunsetRaw) * (1/2)
        else if config.highLatRule = .seventh_of_night then
          (s.msSunrise + 86400000) - (s.msSunrise + 86400000 - s.sunsetRaw) / 7
        else
          (s.msSunrise + 86400000) - config.method.fajr / 60 *
            (s.msSunrise + 86400000 - s.sunsetRaw)) + cc.adjFajrMs
      else s.msFajr := by
  unfold applyFallback
  dsimp only
  split_ifs <;> simp_all

theorem applyFallback_cfFajr_char (config : ResolvedInput) (cc : CC)
    (s : Slab) (u : UF) :
    (applyFallback config cc s u).1.cfFajr =
      if config.highLatRule ≠ .none ∧ (u.sunrise || u.sunset) = false ∧
          (u.fajr || u.isha) = true ∧
          0 < s.msSunrise + 86400000 - s.sunsetRaw ∧ u.fajr = true then
        (if config.highLatRule = .middle_of_night then 4
         else if config.highLatRule = .seventh_of_night then 8 else 16)
      else s.cfFajr := by
  unfold applyFallback
  dsimp only
  split_ifs <;> simp_all

theorem applyFallback_msIsha_char (config : ResolvedInput) (cc : CC)
    (s : Slab) (u : UF) :
    (applyFallback config cc s u).1.msIsha =
      if config.highLatRule ≠ .none ∧ (u.sunrise || u.sunset) = false ∧
          (u.fajr || u.isha) = true ∧
          0 < s.msSunrise + 86400000 - s.sunsetRaw ∧ u.isha = true then
        (if config.highLatRule = .middle_of_night then
          s.sunsetRaw + (s.msSunrise + 86400000 - s.sunsetRaw) * (1/2)
        else if config.highLatRule = .seventh_of_night then
          s.sunsetRaw + (s.msSunrise + 86400000 - s.sunsetRaw) / 7
        else
          s.sunsetRaw + config.method.isha / 60 *
            (s.msSunrise + 86400000 - s.sunsetRaw)) + cc.adjIshaMs
      else s.msIsha := by
  unfold applyFallback
  dsimp only
  split_ifs <;> simp_all

theorem applyFallback_cfIsha_char (config : ResolvedInput) (cc : CC)
    (s : Slab) (u : UF) :
    (applyFallback config cc s u).1.cfIsha =
      if config.highLatRule ≠ .none ∧ (u.sunrise || u.sunset) = false ∧
          (u.fajr || u.isha) = true ∧
          0 < s.msSunrise + 86400000 - s.sunsetRaw ∧ u.isha = true then
        (if config.highLatRule = .middle_of_night then 4
         else if config.highLatRule = .seventh_of_night then 8 else 16)
      else s.cfIsha := by
  unfold applyFallback
  dsimp only
  split_ifs <;> simp_all

theorem output_slab_irrel (T : Trig) (config : ResolvedInput) (cc : CC)
    (dc : DayConstants) (s0 s0' : Slab) :
    output (computeCoreCC T config cc dc s0).1
        (computeCoreCC T config cc dc s0).2 =
      output (computeCoreCC T config cc dc s0').1
        (computeCoreCC T config cc dc s0').2 := by
  rcases Bool.eq_false_or_eq_true (sunU cc dc) with hsun | hsun
  · rcases Bool.eq_false_or_eq_true (fajrU cc dc) with hfa | hfa
    all_goals rcases Bool.eq_false_or_eq_true (asrU T cc dc config.latitude)
      with hasr | hasr
    all_goals rcases Bool.eq_false_or_eq_true (ishaAngleU cc dc)
      with hiu | hiu
    all_goals cases hint : config.method.ishaInterval
    all_goals
      simp [computeCoreCC, preComputeCC, ishaLanes, output, hsun, hfa, hasr,
        hiu, hint, applyFallback_sun_undef, undefFrom, vFrom]
  · rcases Bool.eq_false_or_eq_true (fajrU cc dc) with hfa | hfa
    all_goals rcases Bool.eq_false_or_eq_true (asrU T cc dc config.latitude)
      with hasr | hasr
    all_goals rcases Bool.eq_false_or_eq_true (ishaAngleU cc dc)
      with hiu | hiu
    all_goals cases hint : config.method.ishaInterval
    all_goals by_cases hrule : config.highLatRule = HighLatRule.none
    all_goals by_cases hn :
      0 < sunriseLaneMs T cc dc + 86400000 - sunsetRawMs T cc dc
    all_goals
      simp [computeCoreCC, preComputeCC, ishaLanes, output, hsun, hfa, hasr,
        hiu, hint, hrule, hn, applyFallback_uf_fajr_char,
        applyFallback_uf_isha_char, applyFallback_msFajr_char,
        applyFallback_cfFajr_char, applyFallback_msIsha_char,
        applyFallback_cfIsha_char, undefFrom, vFrom]

/-! ### C7: solar/day-constants/config caches, clear, determinism -/

/-- The fields of a solar position the kernel consumes (solar.ts computes
more; the unused fields are omitted).  `solarPosition` itself is a pure
total Meeus series; it enters the model as the oracle `sp` below. -/
structure SolarPos where
  rightAscension : ℚ
  declination : ℚ
  apparentSiderealTime : ℚ
  eqtMinutes : ℚ
  deriving DecidableEq

/-- Truncation toward zero, as JS `|0` and `%` use. -/
def ratTrunc (x : ℚ) : ℤ := if 0 ≤ x then ⌊x⌋ else -⌊-x⌋

/-- JS remainder `a % b` over ℚ. -/
def jsModQ (a b : ℚ) : ℚ := a - b * (ratTrunc (a / b) : ℚ)

/-- `normalizeDeg` from units.ts over ℚ (used by the day-constants fill
for the right-ascension first differences). -/
def normalizeDegQ (d : ℚ) : ℚ :=
  if 0 ≤ d ∧ d < 360 then d
  else if 360 ≤ d ∧ d < 720 then d - 360
  else if d < 0 ∧ -360 ≤ d then d + 360
  else jsModQ (jsModQ d 360 + 360) 360

/-- The day-constants record built from three consecutive solar
positions (the `_dcJDs[dcIdx] !== julDate` fill block of the kernel). -/
def mkDC (T : Trig) (prevSolar solar nextSolar : SolarPos)
    (julDate : ℚ) : DayConstants :=
  let ca2 := solar.rightAscension
  let cd2 := solar.declination
  let raA := normalizeDegQ (ca2 - prevSolar.rightAscension)
  let raB := normalizeDegQ (nextSolar.rightAscension - ca2)
  let declA := cd2 - prevSolar.declination
  let declB := nextSolar.declination - cd2
  { theta0 := solar.apparentSiderealTime
    a2 := ca2
    d2 := cd2
    raAB := raA + raB
    raC := raB - raA
    declAB := declA + declB
    declC := declB - declA
    sinD2 := T.sin cd2
    cosD2 := T.cos cd2
    eqt := solar.eqtMinutes
    midnightMs := (julDate - 4881175/2) * 86400000 }

/-- The day constants the caches would serve for Julian Date `jd` under
the solar-position oracle `sp`. -/
def mkDayConstants (T : Trig) (sp : ℚ → SolarPos) (jd : ℚ) : DayConstants :=
  mkDC T (sp (jd - 1)) (sp jd) (sp (jd + 1)) jd

/-- `((jd + 0.5) | 0) & CACHE_MASK` — since 512 divides 2³², the int32
wrap drops out and the index is the Euclidean remainder mod 512 of the
truncation. -/
def cacheIdx (jd : ℚ) : ℕ := ((ratTrunc (jd + 1/2)).emod 512).toNat

/-- The value a hit on a never-filled slot would dereference (in the
source this is an `undefined` dereference; it can only be reached with
`jd = 0`, excluded below). -/
def junkSP : SolarPos := ⟨0, 0, 0, 0⟩

/-- The process-wide mutable state: the 512-slot solar-position cache
(`_cacheJDs`/`_cacheVals`), the 512-slot day-constants cache
(`_dcJDs`/`_dc`), the config cache (`_ccLat…` compared fields plus the
derived `_sinLat…` block; `ccKey = none` models the NaN canary), and the
slab ring (`_SLAB`/`_slabOff`, indexed here by slot offset). -/
structure EngineState where
  cacheJDs : ℕ → ℚ
  cacheVals : ℕ → Option SolarPos
  dcJDs : ℕ → ℚ
  dcVals : ℕ → DayConstants
  ccKey : Option CCKey
  ccVals : CC
  slabOff : ℕ
  slab : ℕ → Slab

/-- The initial module state: zeroed key arrays, empty values, NaN
config canary, zeroed slab. -/
def initState : EngineState :=
  { cacheJDs := fun _ => 0
    cacheVals := fun _ => Option.none
    dcJDs := fun _ => 0
    dcVals := fun _ => ⟨0, 0, 0, 0, 0, 0, 0, 0, 0, 0, 0⟩
    ccKey := Option.none
    ccVals := ⟨0, 0, 0, 0, 0, 0, 0, 0, 0, 0, 0, 0, 0, 0, 0, 0, 0, 0, 0, 1⟩
    slabOff := 0
    slab := fun _ => slab0 }

/-- `cachedSolarPosition(jd)`: hit when the stored key equals `jd`
exactly; miss computes and stores. -/
def cachedSolarPosition (sp : ℚ → SolarPos) (st : EngineState) (jd : ℚ) :
    SolarPos × EngineState :=
  if st.cacheJDs (cacheIdx jd) = jd then
    ((st.cacheVals (cacheIdx jd)).getD junkSP, st)
  else
    let v := sp jd
    (v, { st with
      cacheJDs := fun i => if i = cacheIdx jd then jd else st.cacheJDs i
      cacheVals := fun i => if i = cacheIdx jd then some v
        else st.cacheVals i })

/-- The day-constants cache consultation (steps 1–2 of the kernel):
hit on exact Julian Date, miss fetches `jd−1`, `jd`, `jd+1` through the
solar cache and stores the derived constants. -/
def getDayConstants (T : Trig) (sp : ℚ → SolarPos) (st : EngineState)
    (jd : ℚ) : DayConstants × EngineState :=
  if st.dcJDs (cacheIdx jd) = jd then (st.dcVals (cacheIdx jd), st)
  else
    let p1 := cachedSolarPosition sp st (jd - 1)
    let p2 := cachedSolarPosition sp p1.2 jd
    let p3 := cachedSolarPosition sp p2.2 (jd + 1)
    let dcv := mkDC T p1.1 p2.1 p3.1 jd
    (dcv, { p3.2 with
      dcJDs := fun i => if i = cacheIdx jd then jd else p3.2.dcJDs i
      dcVals := fun i => if i = cacheIdx jd then dcv else p3.2.dcVals i })

/-- `29 * 16384` slab doubles. -/
def SLAB_LEN : ℕ := 29 * 16384

/-- One stateful `computePrayerTimes` call on a resolved configuration:
config-cache consult, day-constants consult, slab-slot allocation, kernel
run, output projection. -/
def computeStateful (T : Trig) (sp : ℚ → SolarPos) (config : ResolvedInput)
    (st : EngineState) : PrayerTimesOutput × EngineState :=
  let cc := if st.ccKey = some (ccKeyOf config) then st.ccVals
    else mkCC T config
  let st1 : EngineState :=
    { st with ccKey := some (ccKeyOf config), ccVals := cc }
  let q := getDayConstants T sp st1 (julianDateOfMs config.date)
  let o := q.2.slabOff
  let p := computeCoreCC T config cc q.1 (q.2.slab o)
  (output p.1 p.2,
    { q.2 with
        slabOff := if o + 29 ≥ SLAB_LEN then 0 else o + 29
        slab := fun i => if i = o then p.1 else q.2.slab i })

/-- `clearSolarCache()`: zero both key arrays, poison the config-cache
latitude (NaN canary → `none`), reset the slab ring index.  The value
arrays are left as they are, exactly as in the source. -/
def clearSolarCache (st : EngineState) : EngineState :=
  { st with
      cacheJDs := fun _ => 0
      dcJDs := fun _ => 0
      ccKey := Option.none
      slabOff := 0 }

/-- Cache well-formedness: every filled slot (nonzero key) of the solar
and day-constants caches stores exactly what recomputation would
produce, and the config cache stores the derived block of its key. -/
def WF (T : Trig) (sp : ℚ → SolarPos) (st : EngineState) : Prop :=
  (∀ i, st.cacheJDs i ≠ 0 → st.cacheVals i = some (sp (st.cacheJDs i))) ∧
  (∀ i, st.dcJDs i ≠ 0 → st.dcVals i = mkDayConstants T sp (st.dcJDs i)) ∧
  (∀ k, st.ccKey = some k → st.ccVals = mkCCKey T k)

theorem WF_initState (T : Trig) (sp : ℚ → SolarPos) : WF T sp initState :=
  ⟨fun _ h => absurd rfl h, fun _ h => absurd rfl h,
    fun _ h => Option.noConfusion h⟩

theorem WF_clearSolarCache (T : Trig) (sp : ℚ → SolarPos)
    (st : EngineState) : WF T sp (clearSolarCache st) :=
  ⟨fun _ h => absurd rfl h, fun _ h => absurd rfl h,
    fun _ h => Option.noConfusion h⟩

/-- A solar-cache consultation at a nonzero Julian Date returns exactly
`sp jd` and preserves well-formedness. -/
theorem cachedSolarPosition_correct (T : Trig) (sp : ℚ → SolarPos)
    (st : EngineState) (jd : ℚ) (hwf : WF T sp st) (hjd : jd ≠ 0) :
    (cachedSolarPosition sp st jd).1 = sp jd ∧
    WF T sp (cachedSolarPosition sp st jd).2 := by
  unfold cachedSolarPosition
  dsimp only
  split_ifs with h
  · refine ⟨?_, hwf⟩
    have hv := hwf.1 (cacheIdx jd) (by rw [h]; exact hjd)
    rw [h] at hv
    rw [hv]
    rfl
  · refine ⟨rfl, ?_, hwf.2.1, hwf.2.2⟩
    intro i hi
    by_cases hie : i = cacheIdx jd
    · subst hie
      simp
    · simp only [if_neg hie] at hi ⊢
      exact hwf.1 i hi

/-- A day-constants consultation at a Julian Date whose three sample
dates are nonzero returns exactly the recomputed constants and preserves
well-formedness. -/
theorem getDayConstants_correct (T : Trig) (sp : ℚ → SolarPos)
    (st : EngineState) (jd : ℚ) (hwf : WF T sp st) (h0 : jd ≠ 0)
    (hm : jd - 1 ≠ 0) (hp : jd + 1 ≠ 0) :
    (getDayConstants T sp st jd).1 = mkDayConstants T sp jd ∧
    WF T sp (getDayConstants T sp st jd).2 := by
  unfold getDayConstants
  dsimp only
  split_ifs with h
  · refine ⟨?_, hwf⟩
    have hv := hwf.2.1 (cacheIdx jd) (by rw [h]; exact h0)
    rw [h] at hv
    exact hv
  · obtain ⟨e1, w1⟩ := cachedSolarPosition_correct T sp st (jd - 1) hwf hm
    obtain ⟨e2, w2⟩ := cachedSolarPosition_correct T sp
      (cachedSolarPosition sp st (jd - 1)).2 jd w1 h0
    obtain ⟨e3, w3⟩ := cachedSolarPosition_correct T sp
      (cachedSolarPosition sp (cachedSolarPosition sp st (jd - 1)).2 jd).2
      (jd + 1) w2 hp
    constructor
    · rw [e1, e2, e3]
      rfl
    · refine ⟨w3.1, ?_, w3.2.2⟩
      intro i hi
      by_cases hie : i = cacheIdx jd
      · subst hie
        simp only [if_pos rfl] at hi ⊢
        rw [e1, e2, e3]
        rfl
      · simp only [if_neg hie] at hi ⊢
        exact w3.2.1 i hi

/-- The output a compute at `config` must produce: the kernel on the
recomputed day constants, over a fresh slab slot. -/
def computeDet (T : Trig) (sp : ℚ → SolarPos) (config : ResolvedInput) :
    PrayerTimesOutput :=
  output (computeCore T config
      (mkDayConstants T sp (julianDateOfMs config.date)) slab0).1
    (computeCore T config
      (mkDayConstants T sp (julianDateOfMs config.date)) slab0).2

/-- A stateful compute from any well-formed state yields the
deterministic output and a well-formed state. -/
theorem computeStateful_correct (T : Trig) (sp : ℚ → SolarPos)
    (config : ResolvedInput) (st : EngineState) (hwf : WF T sp st)
    (h0 : julianDateOfMs config.date ≠ 0)
    (hm : julianDateOfMs config.date - 1 ≠ 0)
    (hp : julianDateOfMs config.date + 1 ≠ 0) :
    (computeStateful T sp config st).1 = computeDet T sp config ∧
    WF T sp (computeStateful T sp config st).2 := by
  have hcc : (if st.ccKey = some (ccKeyOf config) then st.ccVals
      else mkCC T config) = mkCC T config := by
    split_ifs with h
    · exact hwf.2.2 _ h
    · rfl
  have hwf1 : WF T sp
      { st with
        ccKey := some (ccKeyOf config)
        ccVals := (if st.ccKey = some (ccKeyOf config) then st.ccVals
          else mkCC T config) } := by
    refine ⟨hwf.1, hwf.2.1, ?_⟩
    intro k hk
    injection hk with hk
    rw [← hk]
    exact hcc
  have hq := getDayConstants_correct T sp
    { st with
      ccKey := some (ccKeyOf config)
      ccVals := (if st.ccKey = some (ccKeyOf config) then st.ccVals
        else mkCC T config) }
    (julianDateOfMs config.date) hwf1 h0 hm hp
  constructor
  · show output (computeCoreCC T config _ _ _).1
        (computeCoreCC T config _ _ _).2 = computeDet T sp config
    rw [hq.1, hcc]
    exact output_slab_irrel T config (mkCC T config)
      (mkDayConstants T sp (julianDateOfMs config.date)) _ slab0
  · exact ⟨hq.2.1, hq.2.2.1, hq.2.2.2⟩

/-- C7: computing the same configuration and date twice yields identical
outputs, a warm-cache compute is bitwise-equal to the cold recomputation,
and `clearSolarCache` has no effect on subsequent outputs — for any
well-formed cache state and any date whose Julian Date and neighbours
are nonzero (every representable calendar date; `jd = 0` is 4713 BCE). -/
theorem compute_cache_transparent (T : Trig) (sp : ℚ → SolarPos)
    (config : ResolvedInput) (st : EngineState) (hwf : WF T sp st)
    (h0 : julianDateOfMs config.date ≠ 0)
    (hm : julianDateOfMs config.date - 1 ≠ 0)
    (hp : julianDateOfMs config.date + 1 ≠ 0) :
    (computeStateful T sp config st).1 = computeDet T sp config ∧
    ((computeStateful T sp config (computeStateful T sp config st).2).1 =
      (computeStateful T sp config st).1) ∧
    ((computeStateful T sp config (clearSolarCache st)).1 =
      (computeStateful T sp config st).1) ∧
    WF T sp (computeStateful T sp config st).2 := by
  obtain ⟨e1, w1⟩ := computeStateful_correct T sp config st hwf h0 hm hp
  obtain ⟨e2, _⟩ := computeStateful_correct T sp config
    (computeStateful T sp config st).2 w1 h0 hm hp
  obtain ⟨e3, _⟩ := computeStateful_correct T sp config
    (clearSolarCache st) (WF_clearSolarCache T sp st) h0 hm hp
  exact ⟨e1, e2.trans e1.symm, e3.trans e1.symm, w1⟩

/-- Constant solar oracle for the witness. -/
def spZero : ℚ → SolarPos := fun _ => ⟨0, 0, 0, 0⟩

/-- Witness for C7 at a concrete configuration, oracle and the initial
state. -/
theorem compute_cache_transparent_witness :
    (computeStateful ceT spZero ceCfg initState).1 =
      computeDet ceT spZero ceCfg :=
  (compute_cache_transparent ceT spZero ceCfg initState
    (WF_initState ceT spZero)
    (by norm_num [julianDateOfMs, ceCfg])
    (by norm_num [julianDateOfMs, ceCfg])
    (by norm_num [julianDateOfMs, ceCfg])).1
end Waqt
